import Mathlib

/- Formal model of the vrnvu/cupid hotel-ingestion service.

   The Go source is shallowly embedded: the in-memory entity graph of the
   client package becomes Lean structures; the relational store becomes an
   explicit record of table contents (lists of rows) plus a serial-id
   counter; each SQL statement issued by the repository becomes a pure
   effect on that record.  Transactions are modelled with fault injection:
   a list of booleans is consumed one entry per SQL statement, a marked
   statement aborts the transaction, and the commit publishes the
   accumulated state only when every statement succeeded. -/

set_option autoImplicit false
set_option linter.dupNamespace false
set_option maxRecDepth 4000

namespace Cupid

/-! ## Entity graph (package client) -/

structure Address where
  Address : String
  City : String
  State : String
  Country : String
  PostalCode : String
  deriving DecidableEq

structure Checkin where
  CheckinStart : String
  CheckinEnd : String
  Checkout : String
  Instructions : List String
  SpecialInstructions : String
  deriving DecidableEq

structure Photo where
  URL : String
  HDURL : String
  ImageDescription : String
  ImageClass1 : String
  ImageClass2 : String
  MainPhoto : Bool
  Score : Rat
  ClassID : Int
  ClassOrder : Int
  deriving DecidableEq

structure Facility where
  FacilityID : Int
  Name : String
  deriving DecidableEq

structure Policy where
  PolicyType : String
  Name : String
  Description : String
  ChildAllowed : String
  PetsAllowed : String
  Parking : String
  ID : Int
  deriving DecidableEq

structure BedType where
  Quantity : Int
  BedType : String
  BedSize : String
  ID : Int
  deriving DecidableEq

structure RoomAmenity where
  AmenitiesID : Int
  Name : String
  SortOrder : Int
  deriving DecidableEq

structure Room where
  ID : Int
  RoomName : String
  Description : String
  RoomSizeSquare : Int
  RoomSizeUnit : String
  HotelID : String
  MaxAdults : Int
  MaxChildren : Int
  MaxOccupancy : Int
  BedRelation : String
  BedTypes : List BedType
  RoomAmenities : List RoomAmenity
  Photos : List Photo
  deriving DecidableEq

structure Property where
  HotelID : Int
  CupidID : Int
  MainImageTh : String
  HotelType : String
  HotelTypeID : Int
  Chain : String
  ChainID : Int
  Latitude : Rat
  Longitude : Rat
  HotelName : String
  Phone : String
  Fax : String
  Email : String
  Address : Address
  Stars : Int
  AirportCode : String
  Rating : Rat
  ReviewCount : Int
  Checkin : Checkin
  Parking : String
  GroupRoomMin : Option Int
  ChildAllowed : Bool
  PetsAllowed : Bool
  Photos : List Photo
  Description : String
  MarkdownDescription : String
  ImportantInfo : String
  Facilities : List Facility
  Policies : List Policy
  Rooms : List Room
  deriving DecidableEq

structure Review where
  ID : Int
  HotelID : Int
  ReviewerName : String
  Rating : Int
  Title : String
  Content : String
  LanguageCode : String
  ReviewDate : String
  HelpfulVotes : Int
  CreatedAt : String
  deriving DecidableEq

/-! ## Relational store: one row structure per table touched by StoreProperty -/

structure HotelRow where
  hotel_id : Int
  cupid_id : Int
  main_image_th : String
  hotel_type : String
  hotel_type_id : Int
  chain : String
  chain_id : Int
  latitude : Rat
  longitude : Rat
  hotel_name : String
  phone : String
  fax : String
  email : String
  stars : Int
  airport_code : String
  rating : Rat
  review_count : Int
  parking : String
  group_room_min : Option Int
  child_allowed : Bool
  pets_allowed : Bool
  description : String
  markdown_description : String
  important_info : String
  created_at : Nat
  updated_at : Nat
  deriving DecidableEq

structure AddressRow where
  hotel_id : Int
  address : String
  city : String
  state : String
  country : String
  postal_code : String
  deriving DecidableEq

structure CheckinRow where
  id : Nat
  hotel_id : Int
  checkin_start : String
  checkin_end : String
  checkout : String
  special_instructions : String
  deriving DecidableEq

structure InstructionRow where
  hotel_checkin_id : Nat
  instruction : String
  sort_order : Nat
  deriving DecidableEq

structure PhotoRow where
  hotel_id : Int
  url : String
  hd_url : String
  image_description : String
  image_class1 : String
  image_class2 : String
  main_photo : Bool
  score : Rat
  class_id : Int
  class_order : Int
  deriving DecidableEq

structure FacilityRow where
  hotel_id : Int
  facility_id : Int
  name : String
  deriving DecidableEq

structure PolicyRow where
  hotel_id : Int
  policy_type : String
  name : String
  description : String
  child_allowed : String
  pets_allowed : String
  parking : String
  cupid_policy_id : Int
  deriving DecidableEq

structure RoomRow where
  id : Nat
  hotel_id : Int
  cupid_room_id : Int
  room_name : String
  description : String
  room_size_square : Int
  room_size_unit : String
  max_adults : Int
  max_children : Int
  max_occupancy : Int
  bed_relation : String
  deriving DecidableEq

structure BedTypeRow where
  room_id : Nat
  quantity : Int
  bed_type : String
  bed_size : String
  cupid_bed_id : Int
  deriving DecidableEq

structure RoomAmenityRow where
  room_id : Nat
  amenities_id : Int
  name : String
  sort_order : Int
  deriving DecidableEq

structure RoomPhotoRow where
  room_id : Nat
  url : String
  hd_url : String
  image_description : String
  image_class1 : String
  image_class2 : String
  main_photo : Bool
  score : Rat
  class_id : Int
  class_order : Int
  deriving DecidableEq

/-- The visible contents of the relational store.  `nextID` models the
serial-id generator shared by the tables whose generated ids the code
reads back (`hotel_checkins.id`, `hotel_rooms.id`). -/
structure DBState where
  hotels : List HotelRow
  hotel_addresses : List AddressRow
  hotel_checkins : List CheckinRow
  hotel_checkin_instructions : List InstructionRow
  hotel_photos : List PhotoRow
  hotel_facilities : List FacilityRow
  hotel_policies : List PolicyRow
  hotel_rooms : List RoomRow
  room_bed_types : List BedTypeRow
  room_amenities : List RoomAmenityRow
  room_photos : List RoomPhotoRow
  nextID : Nat
  deriving DecidableEq

/-! ## Pure effects of the SQL statements issued by HotelRepository -/

/-- Row built by the `INSERT INTO hotels ...` column list, with the
`created_at`/`updated_at` defaults of a fresh insert. -/
def newHotelRow (now : Nat) (p : Property) : HotelRow where
  hotel_id := p.HotelID
  cupid_id := p.CupidID
  main_image_th := p.MainImageTh
  hotel_type := p.HotelType
  hotel_type_id := p.HotelTypeID
  chain := p.Chain
  chain_id := p.ChainID
  latitude := p.Latitude
  longitude := p.Longitude
  hotel_name := p.HotelName
  phone := p.Phone
  fax := p.Fax
  email := p.Email
  stars := p.Stars
  airport_code := p.AirportCode
  rating := p.Rating
  review_count := p.ReviewCount
  parking := p.Parking
  group_room_min := p.GroupRoomMin
  child_allowed := p.ChildAllowed
  pets_allowed := p.PetsAllowed
  description := p.Description
  markdown_description := p.MarkdownDescription
  important_info := p.ImportantInfo
  created_at := now
  updated_at := now

/-- The `ON CONFLICT (hotel_id) DO UPDATE SET ...` clause of `storeHotel`:
only the listed mutable columns and `updated_at` change; every other
column, `created_at` included, keeps its stored value. -/
def updateHotelRow (now : Nat) (p : Property) (r : HotelRow) : HotelRow :=
  { r with
    updated_at := now
    main_image_th := p.MainImageTh
    hotel_name := p.HotelName
    phone := p.Phone
    fax := p.Fax
    email := p.Email
    rating := p.Rating
    review_count := p.ReviewCount
    description := p.Description
    markdown_description := p.MarkdownDescription
    important_info := p.ImportantInfo }

/-- Effect of the upsert in `storeHotel` on the hotels table
(`hotel_id` carries a unique constraint, hence at most one row conflicts). -/
def upsertHotelRows (now : Nat) (p : Property) (rows : List HotelRow) : List HotelRow :=
  if rows.any (fun r => r.hotel_id = p.HotelID) then
    rows.map (fun r => if r.hotel_id = p.HotelID then updateHotelRow now p r else r)
  else
    rows ++ [newHotelRow now p]

/-- `storeHotel`: upsert plus `RETURNING hotel_id` (the conflict key itself). -/
def dbStoreHotel (now : Nat) (p : Property) (db : DBState) : Int × DBState :=
  (p.HotelID, { db with hotels := upsertHotelRows now p db.hotels })

def newAddressRow (hotelID : Int) (a : Address) : AddressRow where
  hotel_id := hotelID
  address := a.Address
  city := a.City
  state := a.State
  country := a.Country
  postal_code := a.PostalCode

/-- Effect of the upsert in `storeAddress` (unique on `hotel_id`). -/
def dbStoreAddress (hotelID : Int) (a : Address) (db : DBState) : DBState :=
  { db with hotel_addresses :=
      if db.hotel_addresses.any (fun r => r.hotel_id = hotelID) then
        db.hotel_addresses.map (fun r =>
          if r.hotel_id = hotelID then newAddressRow hotelID a else r)
      else
        db.hotel_addresses ++ [newAddressRow hotelID a] }

/-- Effect of the upsert in `storeCheckin` with `RETURNING id`: on conflict
the existing generated id is returned, otherwise a fresh serial id. -/
def dbUpsertCheckin (hotelID : Int) (c : Checkin) (db : DBState) : Nat × DBState :=
  match db.hotel_checkins.find? (fun r => r.hotel_id = hotelID) with
  | some row =>
      (row.id,
       { db with hotel_checkins := db.hotel_checkins.map (fun r =>
           if r.hotel_id = hotelID then
             { r with checkin_start := c.CheckinStart, checkin_end := c.CheckinEnd,
                      checkout := c.Checkout, special_instructions := c.SpecialInstructions }
           else r) })
  | none =>
      (db.nextID,
       { db with
           hotel_checkins := db.hotel_checkins ++
             [⟨db.nextID, hotelID, c.CheckinStart, c.CheckinEnd, c.Checkout, c.SpecialInstructions⟩]
           nextID := db.nextID + 1 })

/-- `DELETE FROM hotel_checkin_instructions WHERE hotel_checkin_id = $1`. -/
def dbDeleteInstructions (checkinID : Nat) (db : DBState) : DBState :=
  { db with hotel_checkin_instructions :=
      db.hotel_checkin_instructions.filter (fun r => ¬ r.hotel_checkin_id = checkinID) }

/-- Rows of the multi-row insert in `storeCheckinInstructionsBatch`:
`sort_order` is the position in the input list. -/
def instructionRows (checkinID : Nat) (instructions : List String) : List InstructionRow :=
  (List.range instructions.length).zip instructions |>.map
    (fun pr => ⟨checkinID, pr.2, pr.1⟩)

def dbInsertInstructions (checkinID : Nat) (instructions : List String) (db : DBState) : DBState :=
  { db with hotel_checkin_instructions :=
      db.hotel_checkin_instructions ++ instructionRows checkinID instructions }

def photoRow (hotelID : Int) (ph : Photo) : PhotoRow where
  hotel_id := hotelID
  url := ph.URL
  hd_url := ph.HDURL
  image_description := ph.ImageDescription
  image_class1 := ph.ImageClass1
  image_class2 := ph.ImageClass2
  main_photo := ph.MainPhoto
  score := ph.Score
  class_id := ph.ClassID
  class_order := ph.ClassOrder

def dbDeletePhotos (hotelID : Int) (db : DBState) : DBState :=
  { db with hotel_photos := db.hotel_photos.filter (fun r => ¬ r.hotel_id = hotelID) }

def dbInsertPhotos (hotelID : Int) (photos : List Photo) (db : DBState) : DBState :=
  { db with hotel_photos := db.hotel_photos ++ photos.map (photoRow hotelID) }

def facilityRow (hotelID : Int) (f : Facility) : FacilityRow :=
  ⟨hotelID, f.FacilityID, f.Name⟩

def dbDeleteFacilities (hotelID : Int) (db : DBState) : DBState :=
  { db with hotel_facilities := db.hotel_facilities.filter (fun r => ¬ r.hotel_id = hotelID) }

def dbInsertFacilities (hotelID : Int) (facilities : List Facility) (db : DBState) : DBState :=
  { db with hotel_facilities := db.hotel_facilities ++ facilities.map (facilityRow hotelID) }

def policyRow (hotelID : Int) (pl : Policy) : PolicyRow :=
  ⟨hotelID, pl.PolicyType, pl.Name, pl.Description, pl.ChildAllowed, pl.PetsAllowed, pl.Parking, pl.ID⟩

def dbDeletePolicies (hotelID : Int) (db : DBState) : DBState :=
  { db with hotel_policies := db.hotel_policies.filter (fun r => ¬ r.hotel_id = hotelID) }

def dbInsertPolicies (hotelID : Int) (policies : List Policy) (db : DBState) : DBState :=
  { db with hotel_policies := db.hotel_policies ++ policies.map (policyRow hotelID) }

/-- `DELETE FROM hotel_rooms WHERE hotel_id = $1`; the store-level
`ON DELETE CASCADE` removes the children of the deleted rooms. -/
def dbDeleteRooms (hotelID : Int) (db : DBState) : DBState :=
  let deadIDs := (db.hotel_rooms.filter (fun r => r.hotel_id = hotelID)).map RoomRow.id
  { db with
      hotel_rooms := db.hotel_rooms.filter (fun r => ¬ r.hotel_id = hotelID)
      room_bed_types := db.room_bed_types.filter (fun r => ¬ r.room_id ∈ deadIDs)
      room_amenities := db.room_amenities.filter (fun r => ¬ r.room_id ∈ deadIDs)
      room_photos := db.room_photos.filter (fun r => ¬ r.room_id ∈ deadIDs) }

def roomRow (hotelID : Int) (id : Nat) (room : Room) : RoomRow where
  id := id
  hotel_id := hotelID
  cupid_room_id := room.ID
  room_name := room.RoomName
  description := room.Description
  room_size_square := room.RoomSizeSquare
  room_size_unit := room.RoomSizeUnit
  max_adults := room.MaxAdults
  max_children := room.MaxChildren
  max_occupancy := room.MaxOccupancy
  bed_relation := room.BedRelation

/-- Rows of the multi-row insert in `storeRoomsBatch`, with serial ids
assigned in order starting at `base`. -/
def roomRows (hotelID : Int) (base : Nat) (rooms : List Room) : List RoomRow :=
  (List.range rooms.length).zip rooms |>.map (fun pr => roomRow hotelID (base + pr.1) pr.2)

/-- The rooms insert with `RETURNING id, cupid_room_id`: appends the rows
and yields the (generated id, external id) pairs in insert order. -/
def dbInsertRooms (hotelID : Int) (rooms : List Room) (db : DBState) :
    List (Nat × Int) × DBState :=
  let inserted := roomRows hotelID db.nextID rooms
  (inserted.map (fun r => (r.id, r.cupid_room_id)),
   { db with hotel_rooms := db.hotel_rooms ++ inserted, nextID := db.nextID + rooms.length })

/-! Go map semantics for `roomIDMap`: insertion overwrites the key,
lookup of an absent key yields the zero value `0`. -/

def goMapInsert (m : List (Int × Nat)) (k : Int) (v : Nat) : List (Int × Nat) :=
  if m.any (fun e => e.1 = k) then
    m.map (fun e => if e.1 = k then (k, v) else e)
  else
    m ++ [(k, v)]

def goMapLookup (m : List (Int × Nat)) (k : Int) : Nat :=
  match m.find? (fun e => e.1 = k) with
  | some e => e.2
  | none => 0

/-- `roomIDMap` built by the `rows.Next()` loop of `storeRoomsBatch`:
for each returned row, `roomIDMap[cupidRoomID] = roomID`. -/
def buildRoomIDMap (returned : List (Nat × Int)) : List (Int × Nat) :=
  returned.foldl (fun m row => goMapInsert m row.2 row.1) []

def bedTypeRow (roomID : Nat) (b : BedType) : BedTypeRow :=
  ⟨roomID, b.Quantity, b.BedType, b.BedSize, b.ID⟩

def dbInsertBedTypes (roomID : Nat) (bedTypes : List BedType) (db : DBState) : DBState :=
  { db with room_bed_types := db.room_bed_types ++ bedTypes.map (bedTypeRow roomID) }

def roomAmenityRow (roomID : Nat) (a : RoomAmenity) : RoomAmenityRow :=
  ⟨roomID, a.AmenitiesID, a.Name, a.SortOrder⟩

def dbInsertRoomAmenities (roomID : Nat) (amenities : List RoomAmenity) (db : DBState) : DBState :=
  { db with room_amenities := db.room_amenities ++ amenities.map (roomAmenityRow roomID) }

def roomPhotoRow (roomID : Nat) (ph : Photo) : RoomPhotoRow where
  room_id := roomID
  url := ph.URL
  hd_url := ph.HDURL
  image_description := ph.ImageDescription
  image_class1 := ph.ImageClass1
  image_class2 := ph.ImageClass2
  main_photo := ph.MainPhoto
  score := ph.Score
  class_id := ph.ClassID
  class_order := ph.ClassOrder

def dbInsertRoomPhotos (roomID : Nat) (photos : List Photo) (db : DBState) : DBState :=
  { db with room_photos := db.room_photos ++ photos.map (roomPhotoRow roomID) }

/-! ## Transaction monad with fault injection

Each SQL statement consumes one entry of a `List Bool` fault oracle; a
`true` entry makes that statement fail (any failure inside the
transaction), aborting the transaction.  The empty oracle is the
fault-free run. -/

abbrev Faults : Type := List Bool

structure Tx where
  db : DBState
  faults : Faults
  deriving DecidableEq

def takeFault : Faults → Bool × Faults
  | [] => (false, [])
  | b :: rest => (b, rest)

/-- Run one side-effecting SQL statement (`ExecContext`). -/
def execSQL (eff : DBState → DBState) (t : Tx) : Except Unit Tx :=
  let (b, rest) := takeFault t.faults
  if b then .error () else .ok ⟨eff t.db, rest⟩

/-- Run one value-returning SQL statement (`QueryRowContext` / `QueryContext`). -/
def querySQL {α : Type} (eff : DBState → α × DBState) (t : Tx) : Except Unit (α × Tx) :=
  let (b, rest) := takeFault t.faults
  if b then .error () else .ok ((eff t.db).1, ⟨(eff t.db).2, rest⟩)

/-! ## HotelRepository: one Lean function per Go function, statement for
statement. -/

/-- `storeHotel`: the single upsert query with `RETURNING hotel_id`. -/
def storeHotel (now : Nat) (p : Property) (t : Tx) : Except Unit (Int × Tx) :=
  querySQL (dbStoreHotel now p) t

/-- `storeAddress`: the single upsert statement. -/
def storeAddress (hotelID : Int) (a : Address) (t : Tx) : Except Unit Tx :=
  execSQL (dbStoreAddress hotelID a) t

/-- `storeCheckinInstructionsBatch`: early return on an empty list, one
multi-row insert otherwise. -/
def storeCheckinInstructionsBatch (checkinID : Nat) (instructions : List String) (t : Tx) :
    Except Unit Tx :=
  if instructions.length = 0 then .ok t
  else execSQL (dbInsertInstructions checkinID instructions) t

/-- `storeCheckin`: upsert the checkin row (reading back its id), delete
the prior instructions of that checkin unconditionally, then batch-insert
the new instructions when the list is non-empty. -/
def storeCheckin (hotelID : Int) (c : Checkin) (t : Tx) : Except Unit Tx := do
  let (checkinID, t) ← querySQL (dbUpsertCheckin hotelID c) t
  let t ← execSQL (dbDeleteInstructions checkinID) t
  if c.Instructions.length > 0 then
    storeCheckinInstructionsBatch checkinID c.Instructions t
  else
    .ok t

/-- `storePhotosBatch`: no-op on an empty list, otherwise delete the prior
rows of the hotel then one multi-row insert. -/
def storePhotosBatch (hotelID : Int) (photos : List Photo) (t : Tx) : Except Unit Tx :=
  if photos.length = 0 then .ok t
  else do
    let t ← execSQL (dbDeletePhotos hotelID) t
    execSQL (dbInsertPhotos hotelID photos) t

/-- `storeFacilitiesBatch`: same shape as the photos batch. -/
def storeFacilitiesBatch (hotelID : Int) (facilities : List Facility) (t : Tx) :
    Except Unit Tx :=
  if facilities.length = 0 then .ok t
  else do
    let t ← execSQL (dbDeleteFacilities hotelID) t
    execSQL (dbInsertFacilities hotelID facilities) t

/-- `storePoliciesBatch`: same shape as the photos batch. -/
def storePoliciesBatch (hotelID : Int) (policies : List Policy) (t : Tx) : Except Unit Tx :=
  if policies.length = 0 then .ok t
  else do
    let t ← execSQL (dbDeletePolicies hotelID) t
    execSQL (dbInsertPolicies hotelID policies) t

/-- `storeBedTypesBatch`: early return on empty, one multi-row insert. -/
def storeBedTypesBatch (roomID : Nat) (bedTypes : List BedType) (t : Tx) : Except Unit Tx :=
  if bedTypes.length = 0 then .ok t
  else execSQL (dbInsertBedTypes roomID bedTypes) t

/-- `storeRoomAmenitiesBatch`: early return on empty, one multi-row insert. -/
def storeRoomAmenitiesBatch (roomID : Nat) (amenities : List RoomAmenity) (t : Tx) :
    Except Unit Tx :=
  if amenities.length = 0 then .ok t
  else execSQL (dbInsertRoomAmenities roomID amenities) t

/-- `storeRoomPhotosBatch`: early return on empty, one multi-row insert. -/
def storeRoomPhotosBatch (roomID : Nat) (photos : List Photo) (t : Tx) : Except Unit Tx :=
  if photos.length = 0 then .ok t
  else execSQL (dbInsertRoomPhotos roomID photos) t

/-- The `for _, room := range rooms` loop at the end of `storeRoomsBatch`:
`roomID := roomIDMap[room.ID]` (Go zero value `0` when absent), then the
three child batch inserts. -/
def storeRoomChildren (m : List (Int × Nat)) : List Room → Tx → Except Unit Tx
  | [], t => .ok t
  | room :: rest, t => do
    let roomID := goMapLookup m room.ID
    let t ← storeBedTypesBatch roomID room.BedTypes t
    let t ← storeRoomAmenitiesBatch roomID room.RoomAmenities t
    let t ← storeRoomPhotosBatch roomID room.Photos t
    storeRoomChildren m rest t

/-- `storeRoomsBatch`: no-op on an empty list; otherwise delete the prior
rooms of the hotel (children removed by the store cascade), insert the new
rooms reading back `(id, cupid_room_id)` pairs, build `roomIDMap`, and
insert each input room's children under the mapped internal id. -/
def storeRoomsBatch (hotelID : Int) (rooms : List Room) (t : Tx) : Except Unit Tx :=
  if rooms.length = 0 then .ok t
  else do
    let t ← execSQL (dbDeleteRooms hotelID) t
    let (returned, t) ← querySQL (dbInsertRooms hotelID rooms) t
    storeRoomChildren (buildRoomIDMap returned) rooms t

/-- The seven store steps of `StoreProperty`, in source order, each
aborting the transaction on failure. -/
def storePropertySteps (now : Nat) (p : Property) (t : Tx) : Except Unit Tx := do
  let (hotelID, t) ← storeHotel now p t
  let t ← storeAddress hotelID p.Address t
  let t ← storeCheckin hotelID p.Checkin t
  let t ← storePhotosBatch hotelID p.Photos t
  let t ← storeFacilitiesBatch hotelID p.Facilities t
  let t ← storePoliciesBatch hotelID p.Policies t
  storeRoomsBatch hotelID p.Rooms t

/-- `StoreProperty`: begin a transaction, run the seven steps aborting on
the first failure, and commit; `defer tx.Rollback()` discards every
uncommitted write, so an aborted run leaves the store untouched.  `BeginTx`
and `Commit` each consume one fault entry like any other statement.
Returns the published state and whether the transaction committed. -/
def StoreProperty (now : Nat) (p : Property) (db : DBState) (faults : Faults) :
    DBState × Bool :=
  if (takeFault faults).1 then (db, false)
  else
    match storePropertySteps now p ⟨db, (takeFault faults).2⟩ with
    | .error _ => (db, false)
    | .ok t =>
      if (takeFault t.faults).1 then (db, false) else (t.db, true)

/-! ## Fault-free denotations of the same functions -/

/-- Fault-free effect of `storeCheckin`. -/
def dbStoreCheckin (hotelID : Int) (c : Checkin) (db : DBState) : DBState :=
  let checkinID := (dbUpsertCheckin hotelID c db).1
  let db1 := dbDeleteInstructions checkinID (dbUpsertCheckin hotelID c db).2
  if c.Instructions.length > 0 then dbInsertInstructions checkinID c.Instructions db1 else db1

/-- Fault-free effect of `storePhotosBatch`. -/
def dbStorePhotos (hotelID : Int) (photos : List Photo) (db : DBState) : DBState :=
  if photos.length = 0 then db else dbInsertPhotos hotelID photos (dbDeletePhotos hotelID db)

/-- Fault-free effect of `storeFacilitiesBatch`. -/
def dbStoreFacilities (hotelID : Int) (facilities : List Facility) (db : DBState) : DBState :=
  if facilities.length = 0 then db
  else dbInsertFacilities hotelID facilities (dbDeleteFacilities hotelID db)

/-- Fault-free effect of `storePoliciesBatch`. -/
def dbStorePolicies (hotelID : Int) (policies : List Policy) (db : DBState) : DBState :=
  if policies.length = 0 then db
  else dbInsertPolicies hotelID policies (dbDeletePolicies hotelID db)

/-- Fault-free effect of the room-children loop. -/
def dbStoreRoomChildren (m : List (Int × Nat)) : List Room → DBState → DBState
  | [], db => db
  | room :: rest, db =>
    let roomID := goMapLookup m room.ID
    let db := if room.BedTypes.length = 0 then db else dbInsertBedTypes roomID room.BedTypes db
    let db := if room.RoomAmenities.length = 0 then db
              else dbInsertRoomAmenities roomID room.RoomAmenities db
    let db := if room.Photos.length = 0 then db else dbInsertRoomPhotos roomID room.Photos db
    dbStoreRoomChildren m rest db

/-- Fault-free effect of `storeRoomsBatch`. -/
def dbStoreRooms (hotelID : Int) (rooms : List Room) (db : DBState) : DBState :=
  if rooms.length = 0 then db
  else
    let db1 := dbDeleteRooms hotelID db
    dbStoreRoomChildren (buildRoomIDMap (dbInsertRooms hotelID rooms db1).1) rooms
      (dbInsertRooms hotelID rooms db1).2

/-- Fault-free effect of the whole `StoreProperty` transaction. -/
def dbStoreProperty (now : Nat) (p : Property) (db : DBState) : DBState :=
  let hotelID := (dbStoreHotel now p db).1
  let db1 := (dbStoreHotel now p db).2
  let db2 := dbStoreAddress hotelID p.Address db1
  let db3 := dbStoreCheckin hotelID p.Checkin db2
  let db4 := dbStorePhotos hotelID p.Photos db3
  let db5 := dbStoreFacilities hotelID p.Facilities db4
  let db6 := dbStorePolicies hotelID p.Policies db5
  dbStoreRooms hotelID p.Rooms db6

/-! ## Closed-form helpers for reading off the committed state -/

/-- The `id` returned by the checkin upsert: the stored generated id on
conflict, a fresh serial id otherwise. -/
def returnedCheckinID (hotelID : Int) (db : DBState) : Nat :=
  match db.hotel_checkins.find? (fun r => r.hotel_id = hotelID) with
  | some row => row.id
  | none => db.nextID

/-- The serial-id counter after the checkin upsert. -/
def returnedNextID (hotelID : Int) (db : DBState) : Nat :=
  match db.hotel_checkins.find? (fun r => r.hotel_id = hotelID) with
  | some _ => db.nextID
  | none => db.nextID + 1

/-- Internal ids of the room rows removed by the rooms delete. -/
def deadRoomIDs (hotelID : Int) (db : DBState) : List Nat :=
  (db.hotel_rooms.filter (fun r => r.hotel_id = hotelID)).map RoomRow.id

/-- The `roomIDMap` of a committed rooms batch whose serial ids start at
`base`. -/
def roomsMap (hotelID : Int) (base : Nat) (rooms : List Room) : List (Int × Nat) :=
  buildRoomIDMap ((roomRows hotelID base rooms).map (fun r => (r.id, r.cupid_room_id)))

/-! ## GetHotelByID -/

/-- Outcome of the point lookup: the row projection, a distinct not-found
error, or a generic failure is out of scope of this model. -/
def GetHotelByID (hotelID : Int) (db : DBState) : Except Unit HotelRow :=
  match db.hotels.find? (fun r => r.hotel_id = hotelID) with
  | some row => .ok row
  | none => .error ()

/-! ## Status classifier (client.Do, package client) -/

/-- The error values `Do` can return after reading a response:
`typed` is the `*client.Error` carrying status code and the request id
taken from the `X-Request-Id` response header; `unexpected` is the
`fmt.Errorf("unexpected status code: %d", ...)` fallback. -/
inductive GoError where
  | typed (statusCode : Int) (requestID : String)
  | unexpected (statusCode : Int)
  deriving DecidableEq

/-- What `Do` returns once a response with the given status code, body and
`X-Request-Id` header has been read: `(respBody, nil)` for 2xx, `(nil,
*client.Error)` for 4xx and 5xx, `(nil, fmt.Errorf(...))` otherwise. -/
def classifyResponse (statusCode : Int) (body : String) (requestID : String) :
    Option String × Option GoError :=
  if 200 ≤ statusCode ∧ statusCode < 300 then (some body, none)
  else if 400 ≤ statusCode ∧ statusCode ≤ 499 then (none, some (.typed statusCode requestID))
  else if 500 ≤ statusCode ∧ statusCode ≤ 599 then (none, some (.typed statusCode requestID))
  else (none, some (.unexpected statusCode))

/-! ## Sync orchestrator (cmd/data-sync) -/

/-- What a call of `client.Do` produced for the orchestrator: a transport
error, or a 2xx response with its status and body.  Non-2xx responses
surface as `Do` errors and land in the transport-error case. -/
abbrev DoResult : Type := Except Unit (Int × String)

/-- `syncHotelContent`: abort on a failed request, on a 2xx status other
than 200, or on a parse failure, all without touching the store; otherwise
run `StoreProperty`.  Returns the store state and whether the sync
succeeded. -/
def syncHotelContent (doResult : DoResult) (parse : String → Option Property)
    (faults : Faults) (now : Nat) (db : DBState) : DBState × Bool :=
  match doResult with
  | .error _ => (db, false)
  | .ok (status, body) =>
    if status = 200 then
      match parse body with
      | none => (db, false)
      | some property => StoreProperty now property db faults
    else (db, false)

/-- The batch loop of `main`: process the hotel ids in order, counting
successes, never aborting on a failure, and sleeping 100ms after every
hotel.  Returns (final store state, success count, total sleep in ms). -/
def batchSync (env : Int → DoResult) (parse : String → Option Property)
    (faults : Int → Faults) (now : Nat) :
    List Int → DBState → Nat → Nat → DBState × Nat × Nat
  | [], db, successCount, slept => (db, successCount, slept)
  | hotelID :: rest, db, successCount, slept =>
    let r := syncHotelContent (env hotelID) parse (faults hotelID) now db
    batchSync env parse faults now rest r.1
      (if r.2 then successCount + 1 else successCount) (slept + 100)

/-- The batch report printed at the end: success count and failure count
computed as total minus successes. -/
def batchReport (env : Int → DoResult) (parse : String → Option Property)
    (faults : Int → Faults) (now : Nat) (hotelIDs : List Int) (db : DBState) : Nat × Nat :=
  let r := batchSync env parse faults now hotelIDs db 0 0
  (r.2.1, hotelIDs.length - r.2.1)

/-- `syncHotelReviews`: abort on request failure or non-200 status; when
the body is non-empty, parse it; store only when the parsed list is
non-empty.  Returns the unit outcome and the list `StoreReviews` was
called with, `none` when it was not called. -/
def syncHotelReviews (doResult : DoResult) (parse : String → Option (List Review))
    (storeResult : Except Unit Unit) : Except Unit Unit × Option (List Review) :=
  match doResult with
  | .error _ => (.error (), none)
  | .ok (status, body) =>
    if status = 200 then
      if body.length > 0 then
        match parse body with
        | none => (.error (), none)
        | some reviews =>
          if reviews.length > 0 then
            match storeResult with
            | .error _ => (.error (), some reviews)
            | .ok _ => (.ok (), some reviews)
          else (.ok (), none)
      else (.ok (), none)
    else (.error (), none)

/-! ## Review cache and read path (package cache, handlers, cmd/server) -/

/-- Behaviour of the cache backend for one request: what `GetReviews`
returns (`ok none` is the miss `(nil, nil)`, `ok (some l)` a hit), and
whether `SetReviews` would fail. -/
structure CacheOps where
  get : Except Unit (Option (List Review))
  setResult : Except Unit Unit

/-- What the review handler writes out: HTTP status, the reviews list, the
`from_cache` flag, and the TTL of the `SetReviews` attempt when one was
made (`none` when the cache was not repopulated). -/
structure HandlerResult where
  status : Nat
  reviews : List Review
  fromCache : Bool
  cacheSetTTL : Option Nat
  deriving DecidableEq

/-- Go interface semantics for the `cache.ReviewCache` field: `none` is a
nil interface; `some ptr` is a non-nil interface wrapping a `*RedisCache`
pointer that may itself be nil (`ptr = none`). -/
abbrev CacheIface : Type := Option (Option Unit)

/-- A Go runtime panic (here: nil-pointer dereference inside a method
called on a nil `*RedisCache` receiver). -/
inductive GoPanic where
  | nilPointerDereference
  deriving DecidableEq

/-- The TTL the handler passes to `SetReviews`: `5*time.Minute`, in seconds. -/
def reviewCacheTTL : Nat := 300

/-- `getHotelReviewsHandler` past id parsing: check `s.cache != nil`
(interface nil check), call `GetReviews` (dereferencing the wrapped
pointer: nil receiver panics), treat `err == nil && cachedReviews != nil`
as a hit, otherwise fall back to the repository lookup and attempt
`SetReviews` whose failure is only logged. -/
def getHotelReviewsHandler (cache : CacheIface) (ops : CacheOps)
    (repoGet : Except Unit (List Review)) : Except GoPanic HandlerResult :=
  match cache with
  | none =>
    match repoGet with
    | .error _ => .ok ⟨500, [], false, none⟩
    | .ok reviews => .ok ⟨200, reviews, false, none⟩
  | some ptr =>
    match ptr with
    | none => .error .nilPointerDereference
    | some _ =>
      match ops.get with
      | .ok (some reviews) => .ok ⟨200, reviews, true, none⟩
      | _ =>
        match repoGet with
        | .error _ => .ok ⟨500, [], false, none⟩
        | .ok reviews => .ok ⟨200, reviews, false, some reviewCacheTTL⟩

/-- The cache wiring of `cmd/server/main.go`: `NewRedisCache` yields a
non-nil pointer; when the startup ping fails the code sets the typed
pointer variable `redisCache` to nil and passes it to `NewServer`, which
wraps it into a non-nil interface holding a nil pointer. -/
def mainCacheSetup (pingOK : Bool) : CacheIface :=
  if pingOK then some (some ()) else some none

/-! ## Concrete sample data for closed evaluations -/

def emptyDB : DBState := ⟨[], [], [], [], [], [], [], [], [], [], [], 0⟩

def sampleAddress : Address := ⟨"28 Bedfordbury", "London", "", "GB", "WC2N 4BJ"⟩

def sampleCheckin : Checkin := ⟨"14:00", "22:00", "11:00", [], ""⟩

/-- The literal scenario of the spec: hotel 1641879, The Z Hotel Covent
Garden, rating 8.3. -/
def sampleProperty : Property where
  HotelID := 1641879
  CupidID := 1
  MainImageTh := ""
  HotelType := "Hotels"
  HotelTypeID := 0
  Chain := ""
  ChainID := 0
  Latitude := 0
  Longitude := 0
  HotelName := "The Z Hotel Covent Garden"
  Phone := ""
  Fax := ""
  Email := ""
  Address := sampleAddress
  Stars := 4
  AirportCode := "LHR"
  Rating := 83 / 10
  ReviewCount := 100
  Checkin := sampleCheckin
  Parking := ""
  GroupRoomMin := none
  ChildAllowed := false
  PetsAllowed := false
  Photos := []
  Description := ""
  MarkdownDescription := ""
  ImportantInfo := ""
  Facilities := []
  Policies := []
  Rooms := []

def sampleBed10 : BedType := ⟨2, "Double", "Queen", 501⟩

def sampleBed20 : BedType := ⟨1, "Twin", "Single", 502⟩

def sampleAmenity : RoomAmenity := ⟨7, "wifi", 1⟩

def samplePhoto : Photo := ⟨"url", "hd", "room view", "", "", false, 5, 3, 1⟩

/-- A room with external id 10 carrying one bed type, one amenity and one
photo. -/
def sampleRoom10 : Room :=
  ⟨10, "Room 10", "", 20, "m2", "", 2, 1, 3, "", [sampleBed10], [sampleAmenity], [samplePhoto]⟩

/-- A room with external id 20 carrying one bed type. -/
def sampleRoom20 : Room :=
  ⟨20, "Room 20", "", 25, "m2", "", 2, 2, 4, "", [sampleBed20], [], []⟩

/-- The spec's room-remapping scenario: a Property with two rooms whose
external ids are 10 and 20. -/
def roomsProperty : Property := { sampleProperty with Rooms := [sampleRoom10, sampleRoom20] }

/-- A store already holding a checkin row for hotel 1641879 (generated id
5) together with one stored special instruction for that checkin. -/
def seededCheckinDB : DBState :=
  { emptyDB with
      hotel_checkins := [⟨5, 1641879, "14:00", "22:00", "11:00", ""⟩]
      hotel_checkin_instructions := [⟨5, "Bring ID", 0⟩]
      nextID := 6 }

/-- A second property, distinct hotel id, for the batch scenario. -/
def otherProperty : Property := { sampleProperty with HotelID := 99, CupidID := 2 }

/-- External source behaviour for the batch scenario [A, B, C] = [1, 2, 3]:
hotels 1 and 3 fetch fine, hotel 2 returns a failure (e.g. a 500, which
`Do` surfaces as an error). -/
def batchEnvABC : Int → DoResult := fun hotelID =>
  if hotelID = 1 then .ok (200, "p1")
  else if hotelID = 3 then .ok (200, "p3")
  else .error ()

/-- Parser behaviour for the batch scenario. -/
def batchParseABC : String → Option Property := fun body =>
  if body = "p1" then some sampleProperty
  else if body = "p3" then some otherProperty
  else none

/-! ## Lemmas: every successful run of a repository function applies its
fault-free denotation, whatever the fault oracle did. -/

theorem except_bind_ok {α β : Type} {x : Except Unit α} {f : α → Except Unit β} {b : β} :
    (x >>= f) = .ok b ↔ ∃ a, x = .ok a ∧ f a = .ok b := by
  cases x <;> simp [Bind.bind, Except.bind]

theorem execSQL_nil (eff : DBState → DBState) (db : DBState) :
    execSQL eff ⟨db, []⟩ = .ok ⟨eff db, []⟩ := rfl

theorem querySQL_nil {α : Type} (eff : DBState → α × DBState) (db : DBState) :
    querySQL eff ⟨db, []⟩ = .ok ((eff db).1, ⟨(eff db).2, []⟩) := rfl

theorem execSQL_ok {eff : DBState → DBState} {t t' : Tx} (h : execSQL eff t = .ok t') :
    t'.db = eff t.db := by
  obtain ⟨db, fs⟩ := t
  cases fs with
  | nil => rw [execSQL_nil] at h; cases h; rfl
  | cons b rest =>
    cases b with
    | true => simp [execSQL, takeFault] at h
    | false => simp only [execSQL, takeFault, if_neg Bool.false_ne_true] at h; cases h; rfl

theorem querySQL_ok {α : Type} {eff : DBState → α × DBState} {a : α} {t t' : Tx}
    (h : querySQL eff t = .ok (a, t')) :
    a = (eff t.db).1 ∧ t'.db = (eff t.db).2 := by
  obtain ⟨db, fs⟩ := t
  cases fs with
  | nil => rw [querySQL_nil] at h; cases h; exact ⟨rfl, rfl⟩
  | cons b rest =>
    cases b with
    | true => simp [querySQL, takeFault] at h
    | false =>
      simp only [querySQL, takeFault, if_neg Bool.false_ne_true] at h
      cases h; exact ⟨rfl, rfl⟩

theorem storeHotel_ok {now : Nat} {p : Property} {hid : Int} {t t' : Tx}
    (h : storeHotel now p t = .ok (hid, t')) :
    hid = p.HotelID ∧ t'.db = (dbStoreHotel now p t.db).2 :=
  querySQL_ok h

theorem storeAddress_ok {hotelID : Int} {a : Address} {t t' : Tx}
    (h : storeAddress hotelID a t = .ok t') :
    t'.db = dbStoreAddress hotelID a t.db :=
  execSQL_ok h

theorem storeCheckinInstructionsBatch_ok {checkinID : Nat} {instructions : List String}
    {t t' : Tx} (h : storeCheckinInstructionsBatch checkinID instructions t = .ok t') :
    t'.db = if instructions.length = 0 then t.db
            else dbInsertInstructions checkinID instructions t.db := by
  unfold storeCheckinInstructionsBatch at h
  by_cases hl : instructions.length = 0
  · rw [if_pos hl] at h ⊢; cases h; rfl
  · rw [if_neg hl] at h ⊢; exact execSQL_ok h

theorem storeCheckin_ok {hotelID : Int} {c : Checkin} {t t' : Tx}
    (h : storeCheckin hotelID c t = .ok t') :
    t'.db = dbStoreCheckin hotelID c t.db := by
  unfold storeCheckin at h
  rw [except_bind_ok] at h
  obtain ⟨⟨cid, t1⟩, h1, h⟩ := h
  rw [except_bind_ok] at h
  obtain ⟨t2, h2, h3⟩ := h
  obtain ⟨hcid, ht1⟩ := querySQL_ok h1
  have ht2 := execSQL_ok h2
  unfold dbStoreCheckin
  by_cases hi : c.Instructions.length > 0
  · rw [if_pos hi] at h3 ⊢
    have := storeCheckinInstructionsBatch_ok h3
    rw [if_neg (by omega)] at this
    rw [this, ht2, ht1, hcid]
  · rw [if_neg hi] at h3 ⊢
    cases h3
    rw [ht2, ht1, hcid]

theorem storePhotosBatch_ok {hotelID : Int} {photos : List Photo} {t t' : Tx}
    (h : storePhotosBatch hotelID photos t = .ok t') :
    t'.db = dbStorePhotos hotelID photos t.db := by
  unfold storePhotosBatch at h
  unfold dbStorePhotos
  by_cases hp : photos.length = 0
  · rw [if_pos hp] at h ⊢; cases h; rfl
  · rw [if_neg hp] at h ⊢
    rw [except_bind_ok] at h
    obtain ⟨t1, h1, h2⟩ := h
    rw [execSQL_ok h2, execSQL_ok h1]

theorem storeFacilitiesBatch_ok {hotelID : Int} {facilities : List Facility} {t t' : Tx}
    (h : storeFacilitiesBatch hotelID facilities t = .ok t') :
    t'.db = dbStoreFacilities hotelID facilities t.db := by
  unfold storeFacilitiesBatch at h
  unfold dbStoreFacilities
  by_cases hp : facilities.length = 0
  · rw [if_pos hp] at h ⊢; cases h; rfl
  · rw [if_neg hp] at h ⊢
    rw [except_bind_ok] at h
    obtain ⟨t1, h1, h2⟩ := h
    rw [execSQL_ok h2, execSQL_ok h1]

theorem storePoliciesBatch_ok {hotelID : Int} {policies : List Policy} {t t' : Tx}
    (h : storePoliciesBatch hotelID policies t = .ok t') :
    t'.db = dbStorePolicies hotelID policies t.db := by
  unfold storePoliciesBatch at h
  unfold dbStorePolicies
  by_cases hp : policies.length = 0
  · rw [if_pos hp] at h ⊢; cases h; rfl
  · rw [if_neg hp] at h ⊢
    rw [except_bind_ok] at h
    obtain ⟨t1, h1, h2⟩ := h
    rw [execSQL_ok h2, execSQL_ok h1]

theorem storeBedTypesBatch_ok {roomID : Nat} {bedTypes : List BedType} {t t' : Tx}
    (h : storeBedTypesBatch roomID bedTypes t = .ok t') :
    t'.db = if bedTypes.length = 0 then t.db else dbInsertBedTypes roomID bedTypes t.db := by
  unfold storeBedTypesBatch at h
  by_cases hl : bedTypes.length = 0
  · rw [if_pos hl] at h ⊢; cases h; rfl
  · rw [if_neg hl] at h ⊢; exact execSQL_ok h

theorem storeRoomAmenitiesBatch_ok {roomID : Nat} {amenities : List RoomAmenity} {t t' : Tx}
    (h : storeRoomAmenitiesBatch roomID amenities t = .ok t') :
    t'.db = if amenities.length = 0 then t.db
            else dbInsertRoomAmenities roomID amenities t.db := by
  unfold storeRoomAmenitiesBatch at h
  by_cases hl : amenities.length = 0
  · rw [if_pos hl] at h ⊢; cases h; rfl
  · rw [if_neg hl] at h ⊢; exact execSQL_ok h

theorem storeRoomPhotosBatch_ok {roomID : Nat} {photos : List Photo} {t t' : Tx}
    (h : storeRoomPhotosBatch roomID photos t = .ok t') :
    t'.db = if photos.length = 0 then t.db else dbInsertRoomPhotos roomID photos t.db := by
  unfold storeRoomPhotosBatch at h
  by_cases hl : photos.length = 0
  · rw [if_pos hl] at h ⊢; cases h; rfl
  · rw [if_neg hl] at h ⊢; exact execSQL_ok h

theorem storeRoomChildren_ok {m : List (Int × Nat)} :
    ∀ {rooms : List Room} {t t' : Tx}, storeRoomChildren m rooms t = .ok t' →
      t'.db = dbStoreRoomChildren m rooms t.db := by
  intro rooms
  induction rooms with
  | nil => intro t t' h; cases h; rfl
  | cons room rest ih =>
    intro t t' h
    unfold storeRoomChildren at h
    rw [except_bind_ok] at h
    obtain ⟨t1, h1, h⟩ := h
    rw [except_bind_ok] at h
    obtain ⟨t2, h2, h⟩ := h
    rw [except_bind_ok] at h
    obtain ⟨t3, h3, h4⟩ := h
    have e1 := storeBedTypesBatch_ok h1
    have e2 := storeRoomAmenitiesBatch_ok h2
    have e3 := storeRoomPhotosBatch_ok h3
    have e4 := ih h4
    unfold dbStoreRoomChildren
    rw [e4, e3, e2, e1]

theorem storeRoomsBatch_ok {hotelID : Int} {rooms : List Room} {t t' : Tx}
    (h : storeRoomsBatch hotelID rooms t = .ok t') :
    t'.db = dbStoreRooms hotelID rooms t.db := by
  unfold storeRoomsBatch at h
  unfold dbStoreRooms
  by_cases hr : rooms.length = 0
  · rw [if_pos hr] at h ⊢; cases h; rfl
  · rw [if_neg hr] at h ⊢
    rw [except_bind_ok] at h
    obtain ⟨t1, h1, h⟩ := h
    rw [except_bind_ok] at h
    obtain ⟨⟨returned, t2⟩, h2, h3⟩ := h
    obtain ⟨hret, ht2⟩ := querySQL_ok h2
    have e3 := storeRoomChildren_ok h3
    rw [e3, ht2, hret, execSQL_ok h1]

theorem storePropertySteps_ok {now : Nat} {p : Property} {db : DBState} {fs : Faults}
    {t' : Tx} (h : storePropertySteps now p ⟨db, fs⟩ = .ok t') :
    t'.db = dbStoreProperty now p db := by
  unfold storePropertySteps at h
  rw [except_bind_ok] at h
  obtain ⟨⟨hid, t1⟩, h1, h⟩ := h
  rw [except_bind_ok] at h
  obtain ⟨t2, h2, h⟩ := h
  rw [except_bind_ok] at h
  obtain ⟨t3, h3, h⟩ := h
  rw [except_bind_ok] at h
  obtain ⟨t4, h4, h⟩ := h
  rw [except_bind_ok] at h
  obtain ⟨t5, h5, h⟩ := h
  rw [except_bind_ok] at h
  obtain ⟨t6, h6, h7⟩ := h
  obtain ⟨hhid, ht1⟩ := storeHotel_ok h1
  unfold dbStoreProperty
  rw [storeRoomsBatch_ok h7, storePoliciesBatch_ok h6, storeFacilitiesBatch_ok h5,
    storePhotosBatch_ok h4, storeCheckin_ok h3, storeAddress_ok h2, ht1, hhid]
  rfl

/-! ## Fault-free runs succeed and compute the denotation -/

theorem dbStoreHotel_fst (now : Nat) (p : Property) (db : DBState) :
    (dbStoreHotel now p db).1 = p.HotelID := rfl

theorem storeHotel_nil (now : Nat) (p : Property) (db : DBState) :
    storeHotel now p ⟨db, []⟩ = .ok (p.HotelID, ⟨(dbStoreHotel now p db).2, []⟩) := rfl

theorem storeAddress_nil (hotelID : Int) (a : Address) (db : DBState) :
    storeAddress hotelID a ⟨db, []⟩ = .ok ⟨dbStoreAddress hotelID a db, []⟩ := rfl

theorem storeCheckinInstructionsBatch_nil (checkinID : Nat) (instructions : List String)
    (db : DBState) :
    storeCheckinInstructionsBatch checkinID instructions ⟨db, []⟩ =
      .ok ⟨if instructions.length = 0 then db
           else dbInsertInstructions checkinID instructions db, []⟩ := by
  by_cases h : instructions.length = 0 <;>
    simp [storeCheckinInstructionsBatch, h, execSQL_nil]

theorem storeCheckin_nil (hotelID : Int) (c : Checkin) (db : DBState) :
    storeCheckin hotelID c ⟨db, []⟩ = .ok ⟨dbStoreCheckin hotelID c db, []⟩ := by
  unfold storeCheckin dbStoreCheckin
  rw [querySQL_nil]
  by_cases hi : c.Instructions.length > 0
  · simp only [Bind.bind, Except.bind, execSQL_nil, if_pos hi,
      storeCheckinInstructionsBatch_nil, if_neg (by omega : ¬ c.Instructions.length = 0)]
  · simp only [Bind.bind, Except.bind, execSQL_nil, if_neg hi]

theorem storePhotosBatch_nil (hotelID : Int) (photos : List Photo) (db : DBState) :
    storePhotosBatch hotelID photos ⟨db, []⟩ = .ok ⟨dbStorePhotos hotelID photos db, []⟩ := by
  by_cases hp : photos.length = 0 <;>
    simp [storePhotosBatch, dbStorePhotos, hp, execSQL_nil, Bind.bind, Except.bind]

theorem storeFacilitiesBatch_nil (hotelID : Int) (facilities : List Facility) (db : DBState) :
    storeFacilitiesBatch hotelID facilities ⟨db, []⟩ =
      .ok ⟨dbStoreFacilities hotelID facilities db, []⟩ := by
  by_cases hp : facilities.length = 0 <;>
    simp [storeFacilitiesBatch, dbStoreFacilities, hp, execSQL_nil, Bind.bind, Except.bind]

theorem storePoliciesBatch_nil (hotelID : Int) (policies : List Policy) (db : DBState) :
    storePoliciesBatch hotelID policies ⟨db, []⟩ =
      .ok ⟨dbStorePolicies hotelID policies db, []⟩ := by
  by_cases hp : policies.length = 0 <;>
    simp [storePoliciesBatch, dbStorePolicies, hp, execSQL_nil, Bind.bind, Except.bind]

theorem storeBedTypesBatch_nil (roomID : Nat) (bedTypes : List BedType) (db : DBState) :
    storeBedTypesBatch roomID bedTypes ⟨db, []⟩ =
      .ok ⟨if bedTypes.length = 0 then db else dbInsertBedTypes roomID bedTypes db, []⟩ := by
  by_cases h : bedTypes.length = 0 <;> simp [storeBedTypesBatch, h, execSQL_nil]

theorem storeRoomAmenitiesBatch_nil (roomID : Nat) (amenities : List RoomAmenity)
    (db : DBState) :
    storeRoomAmenitiesBatch roomID amenities ⟨db, []⟩ =
      .ok ⟨if amenities.length = 0 then db
           else dbInsertRoomAmenities roomID amenities db, []⟩ := by
  by_cases h : amenities.length = 0 <;> simp [storeRoomAmenitiesBatch, h, execSQL_nil]

theorem storeRoomPhotosBatch_nil (roomID : Nat) (photos : List Photo) (db : DBState) :
    storeRoomPhotosBatch roomID photos ⟨db, []⟩ =
      .ok ⟨if photos.length = 0 then db else dbInsertRoomPhotos roomID photos db, []⟩ := by
  by_cases h : photos.length = 0 <;> simp [storeRoomPhotosBatch, h, execSQL_nil]

theorem storeRoomChildren_nil (m : List (Int × Nat)) :
    ∀ (rooms : List Room) (db : DBState),
      storeRoomChildren m rooms ⟨db, []⟩ = .ok ⟨dbStoreRoomChildren m rooms db, []⟩ := by
  intro rooms
  induction rooms with
  | nil => intro db; rfl
  | cons room rest ih =>
    intro db
    unfold storeRoomChildren dbStoreRoomChildren
    simp only [storeBedTypesBatch_nil, Bind.bind, Except.bind, storeRoomAmenitiesBatch_nil,
      storeRoomPhotosBatch_nil, ih]

theorem storeRoomsBatch_nil (hotelID : Int) (rooms : List Room) (db : DBState) :
    storeRoomsBatch hotelID rooms ⟨db, []⟩ = .ok ⟨dbStoreRooms hotelID rooms db, []⟩ := by
  by_cases hr : rooms.length = 0
  · simp [storeRoomsBatch, dbStoreRooms, hr]
  · simp only [storeRoomsBatch, dbStoreRooms, if_neg hr, execSQL_nil, Bind.bind, Except.bind,
      querySQL_nil, storeRoomChildren_nil]

theorem storePropertySteps_nil (now : Nat) (p : Property) (db : DBState) :
    storePropertySteps now p ⟨db, []⟩ = .ok ⟨dbStoreProperty now p db, []⟩ := by
  unfold storePropertySteps dbStoreProperty
  rw [storeHotel_nil]
  simp only [Bind.bind, Except.bind, storeAddress_nil, storeCheckin_nil, storePhotosBatch_nil,
    storeFacilitiesBatch_nil, storePoliciesBatch_nil, storeRoomsBatch_nil, dbStoreHotel_fst]

/-- The fault-free transaction commits and publishes the denotation. -/
theorem storeProperty_noFaults (now : Nat) (p : Property) (db : DBState) :
    StoreProperty now p db [] = (dbStoreProperty now p db, true) := by
  unfold StoreProperty
  simp only [takeFault]
  rw [storePropertySteps_nil]
  simp

/-- Rollback: a transaction that did not commit leaves the store exactly
as it was. -/
theorem storeProperty_rollback {now : Nat} {p : Property} {db : DBState} {faults : Faults}
    (h : (StoreProperty now p db faults).2 = false) :
    (StoreProperty now p db faults).1 = db := by
  unfold StoreProperty at h ⊢
  by_cases hb : (takeFault faults).1 = true
  · rw [if_pos hb]
  · rw [if_neg hb] at h ⊢
    rcases hrun : storePropertySteps now p ⟨db, (takeFault faults).2⟩ with e | t
    · rfl
    · rw [hrun] at h
      dsimp only at h ⊢
      by_cases hc : (takeFault t.faults).1 = true
      · rw [if_pos hc]
      · rw [if_neg hc] at h
        simp at h

/-- Fault-success determinism: a transaction that committed published the
fault-free denotation, whatever the oracle injected. -/
theorem storeProperty_commit {now : Nat} {p : Property} {db : DBState} {faults : Faults}
    (h : (StoreProperty now p db faults).2 = true) :
    (StoreProperty now p db faults).1 = dbStoreProperty now p db := by
  unfold StoreProperty at h ⊢
  by_cases hb : (takeFault faults).1 = true
  · rw [if_pos hb] at h; simp at h
  · rw [if_neg hb] at h ⊢
    rcases hrun : storePropertySteps now p ⟨db, (takeFault faults).2⟩ with e | t
    · rw [hrun] at h
      simp at h
    · rw [hrun] at h
      dsimp only at h ⊢
      by_cases hc : (takeFault t.faults).1 = true
      · rw [if_pos hc] at h; simp at h
      · rw [if_neg hc]
        have e : t.db = dbStoreProperty now p db := storePropertySteps_ok hrun
        exact e

/-! ## Reading the committed state table by table -/

theorem dbStoreCheckin_eq (hotelID : Int) (c : Checkin) (db : DBState) :
    dbStoreCheckin hotelID c db =
      { db with
          hotel_checkins := (dbUpsertCheckin hotelID c db).2.hotel_checkins
          hotel_checkin_instructions :=
            db.hotel_checkin_instructions.filter
              (fun r => ¬ r.hotel_checkin_id = returnedCheckinID hotelID db)
            ++ instructionRows (returnedCheckinID hotelID db) c.Instructions
          nextID := returnedNextID hotelID db } := by
  unfold dbStoreCheckin dbUpsertCheckin returnedCheckinID returnedNextID
  cases hfind : db.hotel_checkins.find? (fun r => r.hotel_id = hotelID) with
  | none =>
    dsimp only
    by_cases hi : c.Instructions.length > 0
    · rw [if_pos hi]; rfl
    · rw [if_neg hi]
      have : c.Instructions = [] := by
        cases hl : c.Instructions with
        | nil => rfl
        | cons a l => rw [hl] at hi; simp at hi
      rw [this]
      simp [dbDeleteInstructions, instructionRows]
  | some row =>
    dsimp only
    by_cases hi : c.Instructions.length > 0
    · rw [if_pos hi]; rfl
    · rw [if_neg hi]
      have : c.Instructions = [] := by
        cases hl : c.Instructions with
        | nil => rfl
        | cons a l => rw [hl] at hi; simp at hi
      rw [this]
      simp [dbDeleteInstructions, instructionRows]

theorem dbStorePhotos_eq (hotelID : Int) (photos : List Photo) (db : DBState) :
    dbStorePhotos hotelID photos db =
      { db with hotel_photos :=
          if photos.length = 0 then db.hotel_photos
          else db.hotel_photos.filter (fun r => ¬ r.hotel_id = hotelID)
               ++ photos.map (photoRow hotelID) } := by
  by_cases hp : photos.length = 0 <;>
    simp [dbStorePhotos, hp, dbInsertPhotos, dbDeletePhotos]

theorem dbStoreFacilities_eq (hotelID : Int) (facilities : List Facility) (db : DBState) :
    dbStoreFacilities hotelID facilities db =
      { db with hotel_facilities :=
          if facilities.length = 0 then db.hotel_facilities
          else db.hotel_facilities.filter (fun r => ¬ r.hotel_id = hotelID)
               ++ facilities.map (facilityRow hotelID) } := by
  by_cases hp : facilities.length = 0 <;>
    simp [dbStoreFacilities, hp, dbInsertFacilities, dbDeleteFacilities]

theorem dbStorePolicies_eq (hotelID : Int) (policies : List Policy) (db : DBState) :
    dbStorePolicies hotelID policies db =
      { db with hotel_policies :=
          if policies.length = 0 then db.hotel_policies
          else db.hotel_policies.filter (fun r => ¬ r.hotel_id = hotelID)
               ++ policies.map (policyRow hotelID) } := by
  by_cases hp : policies.length = 0 <;>
    simp [dbStorePolicies, hp, dbInsertPolicies, dbDeletePolicies]

theorem dbStoreRoomChildren_eq (m : List (Int × Nat)) :
    ∀ (rooms : List Room) (db : DBState),
      dbStoreRoomChildren m rooms db =
        { db with
            room_bed_types := db.room_bed_types
              ++ rooms.flatMap (fun room => room.BedTypes.map (bedTypeRow (goMapLookup m room.ID)))
            room_amenities := db.room_amenities
              ++ rooms.flatMap (fun room =>
                   room.RoomAmenities.map (roomAmenityRow (goMapLookup m room.ID)))
            room_photos := db.room_photos
              ++ rooms.flatMap (fun room =>
                   room.Photos.map (roomPhotoRow (goMapLookup m room.ID))) } := by
  intro rooms
  induction rooms with
  | nil => intro db; simp [dbStoreRoomChildren]
  | cons room rest ih =>
    intro db
    rw [dbStoreRoomChildren, ih]
    by_cases hb : room.BedTypes.length = 0 <;>
      by_cases ha : room.RoomAmenities.length = 0 <;>
      by_cases hp : room.Photos.length = 0 <;>
      simp_all [dbInsertBedTypes, dbInsertRoomAmenities, dbInsertRoomPhotos,
        List.length_eq_zero]

theorem dbStoreRooms_eq (hotelID : Int) (rooms : List Room) (db : DBState) :
    dbStoreRooms hotelID rooms db =
      if rooms.length = 0 then db
      else
        { db with
            hotel_rooms := db.hotel_rooms.filter (fun r => ¬ r.hotel_id = hotelID)
              ++ roomRows hotelID db.nextID rooms
            room_bed_types := db.room_bed_types.filter
                (fun r => ¬ r.room_id ∈ deadRoomIDs hotelID db)
              ++ rooms.flatMap (fun room => room.BedTypes.map
                   (bedTypeRow (goMapLookup (roomsMap hotelID db.nextID rooms) room.ID)))
            room_amenities := db.room_amenities.filter
                (fun r => ¬ r.room_id ∈ deadRoomIDs hotelID db)
              ++ rooms.flatMap (fun room => room.RoomAmenities.map
                   (roomAmenityRow (goMapLookup (roomsMap hotelID db.nextID rooms) room.ID)))
            room_photos := db.room_photos.filter
                (fun r => ¬ r.room_id ∈ deadRoomIDs hotelID db)
              ++ rooms.flatMap (fun room => room.Photos.map
                   (roomPhotoRow (goMapLookup (roomsMap hotelID db.nextID rooms) room.ID)))
            nextID := db.nextID + rooms.length } := by
  by_cases hr : rooms.length = 0
  · rw [if_pos hr]; unfold dbStoreRooms; rw [if_pos hr]
  · rw [if_neg hr]
    unfold dbStoreRooms
    rw [if_neg hr]
    dsimp only
    rw [dbStoreRoomChildren_eq]
    simp [dbInsertRooms, dbDeleteRooms, roomsMap, deadRoomIDs]

/-! Per-step projections, read off the `_eq` lemmas. -/

theorem dbStoreAddress_frame (hotelID : Int) (a : Address) (db : DBState) :
    (dbStoreAddress hotelID a db).hotels = db.hotels
    ∧ (dbStoreAddress hotelID a db).hotel_checkins = db.hotel_checkins
    ∧ (dbStoreAddress hotelID a db).hotel_checkin_instructions = db.hotel_checkin_instructions
    ∧ (dbStoreAddress hotelID a db).hotel_photos = db.hotel_photos
    ∧ (dbStoreAddress hotelID a db).hotel_facilities = db.hotel_facilities
    ∧ (dbStoreAddress hotelID a db).hotel_policies = db.hotel_policies
    ∧ (dbStoreAddress hotelID a db).hotel_rooms = db.hotel_rooms
    ∧ (dbStoreAddress hotelID a db).room_bed_types = db.room_bed_types
    ∧ (dbStoreAddress hotelID a db).room_amenities = db.room_amenities
    ∧ (dbStoreAddress hotelID a db).room_photos = db.room_photos
    ∧ (dbStoreAddress hotelID a db).nextID = db.nextID :=
  ⟨rfl, rfl, rfl, rfl, rfl, rfl, rfl, rfl, rfl, rfl, rfl⟩

theorem dbStoreCheckin_hotels (hotelID : Int) (c : Checkin) (db : DBState) :
    (dbStoreCheckin hotelID c db).hotels = db.hotels := by rw [dbStoreCheckin_eq]

theorem dbStoreCheckin_photos (hotelID : Int) (c : Checkin) (db : DBState) :
    (dbStoreCheckin hotelID c db).hotel_photos = db.hotel_photos := by rw [dbStoreCheckin_eq]

theorem dbStoreCheckin_facilities (hotelID : Int) (c : Checkin) (db : DBState) :
    (dbStoreCheckin hotelID c db).hotel_facilities = db.hotel_facilities := by
  rw [dbStoreCheckin_eq]

theorem dbStoreCheckin_policies (hotelID : Int) (c : Checkin) (db : DBState) :
    (dbStoreCheckin hotelID c db).hotel_policies = db.hotel_policies := by
  rw [dbStoreCheckin_eq]

theorem dbStoreCheckin_rooms (hotelID : Int) (c : Checkin) (db : DBState) :
    (dbStoreCheckin hotelID c db).hotel_rooms = db.hotel_rooms := by rw [dbStoreCheckin_eq]

theorem dbStoreCheckin_bed (hotelID : Int) (c : Checkin) (db : DBState) :
    (dbStoreCheckin hotelID c db).room_bed_types = db.room_bed_types := by
  rw [dbStoreCheckin_eq]

theorem dbStoreCheckin_amen (hotelID : Int) (c : Checkin) (db : DBState) :
    (dbStoreCheckin hotelID c db).room_amenities = db.room_amenities := by
  rw [dbStoreCheckin_eq]

theorem dbStoreCheckin_rphotos (hotelID : Int) (c : Checkin) (db : DBState) :
    (dbStoreCheckin hotelID c db).room_photos = db.room_photos := by rw [dbStoreCheckin_eq]

theorem dbStoreCheckin_instrs (hotelID : Int) (c : Checkin) (db : DBState) :
    (dbStoreCheckin hotelID c db).hotel_checkin_instructions =
      db.hotel_checkin_instructions.filter
        (fun r => ¬ r.hotel_checkin_id = returnedCheckinID hotelID db)
      ++ instructionRows (returnedCheckinID hotelID db) c.Instructions := by
  rw [dbStoreCheckin_eq]

theorem dbStoreCheckin_nextID (hotelID : Int) (c : Checkin) (db : DBState) :
    (dbStoreCheckin hotelID c db).nextID = returnedNextID hotelID db := by
  rw [dbStoreCheckin_eq]

theorem dbStorePhotos_frame (hotelID : Int) (photos : List Photo) (db : DBState) :
    (dbStorePhotos hotelID photos db).hotels = db.hotels
    ∧ (dbStorePhotos hotelID photos db).hotel_checkins = db.hotel_checkins
    ∧ (dbStorePhotos hotelID photos db).hotel_checkin_instructions =
        db.hotel_checkin_instructions
    ∧ (dbStorePhotos hotelID photos db).hotel_facilities = db.hotel_facilities
    ∧ (dbStorePhotos hotelID photos db).hotel_policies = db.hotel_policies
    ∧ (dbStorePhotos hotelID photos db).hotel_rooms = db.hotel_rooms
    ∧ (dbStorePhotos hotelID photos db).room_bed_types = db.room_bed_types
    ∧ (dbStorePhotos hotelID photos db).room_amenities = db.room_amenities
    ∧ (dbStorePhotos hotelID photos db).room_photos = db.room_photos
    ∧ (dbStorePhotos hotelID photos db).nextID = db.nextID := by
  rw [dbStorePhotos_eq]
  exact ⟨rfl, rfl, rfl, rfl, rfl, rfl, rfl, rfl, rfl, rfl⟩

theorem dbStorePhotos_photos (hotelID : Int) (photos : List Photo) (db : DBState) :
    (dbStorePhotos hotelID photos db).hotel_photos =
      if photos.length = 0 then db.hotel_photos
      else db.hotel_photos.filter (fun r => ¬ r.hotel_id = hotelID)
           ++ photos.map (photoRow hotelID) := by
  rw [dbStorePhotos_eq]

theorem dbStoreFacilities_frame (hotelID : Int) (facilities : List Facility) (db : DBState) :
    (dbStoreFacilities hotelID facilities db).hotels = db.hotels
    ∧ (dbStoreFacilities hotelID facilities db).hotel_checkins = db.hotel_checkins
    ∧ (dbStoreFacilities hotelID facilities db).hotel_checkin_instructions =
        db.hotel_checkin_instructions
    ∧ (dbStoreFacilities hotelID facilities db).hotel_photos = db.hotel_photos
    ∧ (dbStoreFacilities hotelID facilities db).hotel_policies = db.hotel_policies
    ∧ (dbStoreFacilities hotelID facilities db).hotel_rooms = db.hotel_rooms
    ∧ (dbStoreFacilities hotelID facilities db).room_bed_types = db.room_bed_types
    ∧ (dbStoreFacilities hotelID facilities db).room_amenities = db.room_amenities
    ∧ (dbStoreFacilities hotelID facilities db).room_photos = db.room_photos
    ∧ (dbStoreFacilities hotelID facilities db).nextID = db.nextID := by
  rw [dbStoreFacilities_eq]
  exact ⟨rfl, rfl, rfl, rfl, rfl, rfl, rfl, rfl, rfl, rfl⟩

theorem dbStoreFacilities_facilities (hotelID : Int) (facilities : List Facility)
    (db : DBState) :
    (dbStoreFacilities hotelID facilities db).hotel_facilities =
      if facilities.length = 0 then db.hotel_facilities
      else db.hotel_facilities.filter (fun r => ¬ r.hotel_id = hotelID)
           ++ facilities.map (facilityRow hotelID) := by
  rw [dbStoreFacilities_eq]

theorem dbStorePolicies_frame (hotelID : Int) (policies : List Policy) (db : DBState) :
    (dbStorePolicies hotelID policies db).hotels = db.hotels
    ∧ (dbStorePolicies hotelID policies db).hotel_checkins = db.hotel_checkins
    ∧ (dbStorePolicies hotelID policies db).hotel_checkin_instructions =
        db.hotel_checkin_instructions
    ∧ (dbStorePolicies hotelID policies db).hotel_photos = db.hotel_photos
    ∧ (dbStorePolicies hotelID policies db).hotel_facilities = db.hotel_facilities
    ∧ (dbStorePolicies hotelID policies db).hotel_rooms = db.hotel_rooms
    ∧ (dbStorePolicies hotelID policies db).room_bed_types = db.room_bed_types
    ∧ (dbStorePolicies hotelID policies db).room_amenities = db.room_amenities
    ∧ (dbStorePolicies hotelID policies db).room_photos = db.room_photos
    ∧ (dbStorePolicies hotelID policies db).nextID = db.nextID := by
  rw [dbStorePolicies_eq]
  exact ⟨rfl, rfl, rfl, rfl, rfl, rfl, rfl, rfl, rfl, rfl⟩

theorem dbStorePolicies_policies (hotelID : Int) (policies : List Policy) (db : DBState) :
    (dbStorePolicies hotelID policies db).hotel_policies =
      if policies.length = 0 then db.hotel_policies
      else db.hotel_policies.filter (fun r => ¬ r.hotel_id = hotelID)
           ++ policies.map (policyRow hotelID) := by
  rw [dbStorePolicies_eq]

theorem dbStoreRooms_frame (hotelID : Int) (rooms : List Room) (db : DBState) :
    (dbStoreRooms hotelID rooms db).hotels = db.hotels
    ∧ (dbStoreRooms hotelID rooms db).hotel_checkins = db.hotel_checkins
    ∧ (dbStoreRooms hotelID rooms db).hotel_checkin_instructions =
        db.hotel_checkin_instructions
    ∧ (dbStoreRooms hotelID rooms db).hotel_photos = db.hotel_photos
    ∧ (dbStoreRooms hotelID rooms db).hotel_facilities = db.hotel_facilities
    ∧ (dbStoreRooms hotelID rooms db).hotel_policies = db.hotel_policies := by
  rw [dbStoreRooms_eq]
  by_cases hr : rooms.length = 0
  · rw [if_pos hr]
    exact ⟨rfl, rfl, rfl, rfl, rfl, rfl⟩
  · rw [if_neg hr]
    exact ⟨rfl, rfl, rfl, rfl, rfl, rfl⟩

/-! Tables of the committed transaction, in terms of the initial state. -/

theorem dbStoreProperty_hotels (now : Nat) (p : Property) (db : DBState) :
    (dbStoreProperty now p db).hotels = upsertHotelRows now p db.hotels := by
  simp only [dbStoreProperty]
  rw [(dbStoreRooms_frame _ _ _).1, (dbStorePolicies_frame _ _ _).1,
    (dbStoreFacilities_frame _ _ _).1, (dbStorePhotos_frame _ _ _).1,
    dbStoreCheckin_hotels, (dbStoreAddress_frame _ _ _).1]
  rfl

theorem dbStoreProperty_photos (now : Nat) (p : Property) (db : DBState) :
    (dbStoreProperty now p db).hotel_photos =
      if p.Photos.length = 0 then db.hotel_photos
      else db.hotel_photos.filter (fun r => ¬ r.hotel_id = p.HotelID)
           ++ p.Photos.map (photoRow p.HotelID) := by
  simp only [dbStoreProperty]
  rw [(dbStoreRooms_frame _ _ _).2.2.2.1, (dbStorePolicies_frame _ _ _).2.2.2.1,
    (dbStoreFacilities_frame _ _ _).2.2.2.1, dbStorePhotos_photos,
    dbStoreCheckin_photos, (dbStoreAddress_frame _ _ _).2.2.2.1, dbStoreHotel_fst]
  rfl

theorem dbStoreProperty_facilities (now : Nat) (p : Property) (db : DBState) :
    (dbStoreProperty now p db).hotel_facilities =
      if p.Facilities.length = 0 then db.hotel_facilities
      else db.hotel_facilities.filter (fun r => ¬ r.hotel_id = p.HotelID)
           ++ p.Facilities.map (facilityRow p.HotelID) := by
  simp only [dbStoreProperty]
  rw [(dbStoreRooms_frame _ _ _).2.2.2.2.1, (dbStorePolicies_frame _ _ _).2.2.2.2.1,
    dbStoreFacilities_facilities, (dbStorePhotos_frame _ _ _).2.2.2.1,
    dbStoreCheckin_facilities, (dbStoreAddress_frame _ _ _).2.2.2.2.1, dbStoreHotel_fst]
  rfl

theorem dbStoreProperty_policies (now : Nat) (p : Property) (db : DBState) :
    (dbStoreProperty now p db).hotel_policies =
      if p.Policies.length = 0 then db.hotel_policies
      else db.hotel_policies.filter (fun r => ¬ r.hotel_id = p.HotelID)
           ++ p.Policies.map (policyRow p.HotelID) := by
  simp only [dbStoreProperty]
  rw [(dbStoreRooms_frame _ _ _).2.2.2.2.2, dbStorePolicies_policies,
    (dbStoreFacilities_frame _ _ _).2.2.2.2.1, (dbStorePhotos_frame _ _ _).2.2.2.2.1,
    dbStoreCheckin_policies, (dbStoreAddress_frame _ _ _).2.2.2.2.2.1, dbStoreHotel_fst]
  rfl

theorem dbStoreProperty_instructions (now : Nat) (p : Property) (db : DBState) :
    (dbStoreProperty now p db).hotel_checkin_instructions =
      db.hotel_checkin_instructions.filter
        (fun r => ¬ r.hotel_checkin_id = returnedCheckinID p.HotelID db)
      ++ instructionRows (returnedCheckinID p.HotelID db) p.Checkin.Instructions := by
  simp only [dbStoreProperty]
  rw [(dbStoreRooms_frame _ _ _).2.2.1, (dbStorePolicies_frame _ _ _).2.2.1,
    (dbStoreFacilities_frame _ _ _).2.2.1, (dbStorePhotos_frame _ _ _).2.2.1,
    dbStoreCheckin_instrs, dbStoreHotel_fst]
  rfl

/-! ## Small list helpers -/

theorem list_map_id_of {α : Type} (f : α → α) :
    ∀ (l : List α), (∀ x ∈ l, f x = x) → l.map f = l := by
  intro l
  induction l with
  | nil => intro _; rfl
  | cons a l ih =>
    intro h
    simp only [List.map_cons]
    rw [h a (by simp), ih (fun x hx => h x (by simp [hx]))]

theorem upsertHotelRows_fresh (now : Nat) (p : Property) (rows : List HotelRow)
    (h : ∀ r ∈ rows, r.hotel_id ≠ p.HotelID) :
    upsertHotelRows now p rows = rows ++ [newHotelRow now p] := by
  unfold upsertHotelRows
  rw [if_neg]
  simp only [List.any_eq_true, decide_eq_true_eq, not_exists]
  intro r hr
  exact absurd hr.2 (h r hr.1)

/-! ## C1 and C2 -/

/-- C1: StoreProperty is atomic.  For every property, initial store state
and fault oracle, the published state is either the full fault-free
denotation of all seven steps (when the transaction committed) or exactly
the initial state (when any statement failed: full rollback, never a
partial graph); and the fault-free run always commits. -/
theorem storeProperty_atomic (now : Nat) (p : Property) (db : DBState) (faults : Faults) :
    (StoreProperty now p db faults).1 =
      (if (StoreProperty now p db faults).2 = true then dbStoreProperty now p db else db)
    ∧ StoreProperty now p db [] = (dbStoreProperty now p db, true) := by
  constructor
  · by_cases h : (StoreProperty now p db faults).2 = true
    · rw [if_pos h]; exact storeProperty_commit h
    · rw [if_neg h]
      exact storeProperty_rollback (by simpa using h)
  · exact storeProperty_noFaults now p db

/-- C2: the upsert is idempotent on the external id.  Storing a Property
into a store that does not yet hold its hotel id, then storing it again
with only the rating changed, leaves exactly one hotels row for that id;
the row carries the new rating, the creation timestamp of the first store,
and the update timestamp of the second. -/
theorem upsert_idempotent (now1 now2 : Nat) (p : Property) (r2 : Rat) (db : DBState)
    (hfresh : ∀ r ∈ db.hotels, r.hotel_id ≠ p.HotelID) :
    (((StoreProperty now2 { p with Rating := r2 }
          (StoreProperty now1 p db []).1 []).1.hotels.filter
        (fun r => r.hotel_id = p.HotelID)).length = 1)
    ∧ ∀ r ∈ (StoreProperty now2 { p with Rating := r2 }
          (StoreProperty now1 p db []).1 []).1.hotels,
        r.hotel_id = p.HotelID →
          r.rating = r2 ∧ r.created_at = now1 ∧ r.updated_at = now2 := by
  simp only [storeProperty_noFaults]
  rw [dbStoreProperty_hotels, dbStoreProperty_hotels]
  rw [upsertHotelRows_fresh now1 p db.hotels hfresh]
  have hid2 : Property.HotelID { p with Rating := r2 } = p.HotelID := rfl
  have hany : (db.hotels ++ [newHotelRow now1 p]).any
      (fun r => r.hotel_id = Property.HotelID { p with Rating := r2 }) = true := by
    simp [newHotelRow]
  unfold upsertHotelRows
  rw [if_pos hany]
  rw [List.map_append]
  rw [list_map_id_of _ db.hotels (by
    intro r hr
    rw [if_neg]
    exact fun hcontra => absurd (hcontra.trans hid2) (hfresh r hr))]
  have hcond : (newHotelRow now1 p).hotel_id = Property.HotelID { p with Rating := r2 } :=
    rfl
  simp only [List.map_cons, List.map_nil]
  rw [if_pos hcond]
  constructor
  · rw [List.filter_append]
    rw [show db.hotels.filter (fun r => r.hotel_id = p.HotelID) = [] from by
      rw [List.filter_eq_nil_iff]
      intro r hr
      simpa using hfresh r hr]
    simp [updateHotelRow, newHotelRow]
  · intro r hr _
    rcases List.mem_append.1 hr with hmem | hmem
    · exact absurd ‹r.hotel_id = p.HotelID› (hfresh r hmem)
    · have : r = updateHotelRow now2 { p with Rating := r2 } (newHotelRow now1 p) := by
        simpa using hmem
      rw [this]
      exact ⟨rfl, rfl, rfl⟩

/-- Witness for C2 at the literal spec scenario: first store hotel 1641879
with rating 8.3 into the empty store, then with rating 9. -/
theorem upsert_idempotent_witness :
    (∀ r ∈ emptyDB.hotels, r.hotel_id ≠ sampleProperty.HotelID)
    ∧ ((((StoreProperty 2 { sampleProperty with Rating := 9 }
            (StoreProperty 1 sampleProperty emptyDB []).1 []).1.hotels.filter
          (fun r => r.hotel_id = sampleProperty.HotelID)).length = 1)
        ∧ ∀ r ∈ (StoreProperty 2 { sampleProperty with Rating := 9 }
              (StoreProperty 1 sampleProperty emptyDB []).1 []).1.hotels,
            r.hotel_id = sampleProperty.HotelID →
              r.rating = 9 ∧ r.created_at = 1 ∧ r.updated_at = 2) :=
  ⟨by simp [emptyDB],
   upsert_idempotent 1 2 sampleProperty 9 emptyDB (by simp [emptyDB])⟩

/-! Frame facts of the earlier steps on the room tables and the id counter. -/

theorem dbStoreAddress_keeps_hotel_rooms (hotelID : Int) (a : Address) (db : DBState) :
    (dbStoreAddress hotelID a db).hotel_rooms = db.hotel_rooms := rfl

theorem dbStoreAddress_keeps_room_bed_types (hotelID : Int) (a : Address) (db : DBState) :
    (dbStoreAddress hotelID a db).room_bed_types = db.room_bed_types := rfl

theorem dbStoreAddress_keeps_room_amenities (hotelID : Int) (a : Address) (db : DBState) :
    (dbStoreAddress hotelID a db).room_amenities = db.room_amenities := rfl

theorem dbStoreAddress_keeps_room_photos (hotelID : Int) (a : Address) (db : DBState) :
    (dbStoreAddress hotelID a db).room_photos = db.room_photos := rfl

theorem dbStoreAddress_keeps_nextID (hotelID : Int) (a : Address) (db : DBState) :
    (dbStoreAddress hotelID a db).nextID = db.nextID := rfl

theorem dbStorePhotos_keeps_hotel_rooms (hotelID : Int) (photos : List Photo) (db : DBState) :
    (dbStorePhotos hotelID photos db).hotel_rooms = db.hotel_rooms := by
  rw [dbStorePhotos_eq]

theorem dbStorePhotos_keeps_room_bed_types (hotelID : Int) (photos : List Photo) (db : DBState) :
    (dbStorePhotos hotelID photos db).room_bed_types = db.room_bed_types := by
  rw [dbStorePhotos_eq]

theorem dbStorePhotos_keeps_room_amenities (hotelID : Int) (photos : List Photo) (db : DBState) :
    (dbStorePhotos hotelID photos db).room_amenities = db.room_amenities := by
  rw [dbStorePhotos_eq]

theorem dbStorePhotos_keeps_room_photos (hotelID : Int) (photos : List Photo) (db : DBState) :
    (dbStorePhotos hotelID photos db).room_photos = db.room_photos := by
  rw [dbStorePhotos_eq]

theorem dbStorePhotos_keeps_nextID (hotelID : Int) (photos : List Photo) (db : DBState) :
    (dbStorePhotos hotelID photos db).nextID = db.nextID := by
  rw [dbStorePhotos_eq]

theorem dbStoreFacilities_keeps_hotel_rooms (hotelID : Int) (facilities : List Facility) (db : DBState) :
    (dbStoreFacilities hotelID facilities db).hotel_rooms = db.hotel_rooms := by
  rw [dbStoreFacilities_eq]

theorem dbStoreFacilities_keeps_room_bed_types (hotelID : Int) (facilities : List Facility) (db : DBState) :
    (dbStoreFacilities hotelID facilities db).room_bed_types = db.room_bed_types := by
  rw [dbStoreFacilities_eq]

theorem dbStoreFacilities_keeps_room_amenities (hotelID : Int) (facilities : List Facility) (db : DBState) :
    (dbStoreFacilities hotelID facilities db).room_amenities = db.room_amenities := by
  rw [dbStoreFacilities_eq]

theorem dbStoreFacilities_keeps_room_photos (hotelID : Int) (facilities : List Facility) (db : DBState) :
    (dbStoreFacilities hotelID facilities db).room_photos = db.room_photos := by
  rw [dbStoreFacilities_eq]

theorem dbStoreFacilities_keeps_nextID (hotelID : Int) (facilities : List Facility) (db : DBState) :
    (dbStoreFacilities hotelID facilities db).nextID = db.nextID := by
  rw [dbStoreFacilities_eq]

theorem dbStorePolicies_keeps_hotel_rooms (hotelID : Int) (policies : List Policy) (db : DBState) :
    (dbStorePolicies hotelID policies db).hotel_rooms = db.hotel_rooms := by
  rw [dbStorePolicies_eq]

theorem dbStorePolicies_keeps_room_bed_types (hotelID : Int) (policies : List Policy) (db : DBState) :
    (dbStorePolicies hotelID policies db).room_bed_types = db.room_bed_types := by
  rw [dbStorePolicies_eq]

theorem dbStorePolicies_keeps_room_amenities (hotelID : Int) (policies : List Policy) (db : DBState) :
    (dbStorePolicies hotelID policies db).room_amenities = db.room_amenities := by
  rw [dbStorePolicies_eq]

theorem dbStorePolicies_keeps_room_photos (hotelID : Int) (policies : List Policy) (db : DBState) :
    (dbStorePolicies hotelID policies db).room_photos = db.room_photos := by
  rw [dbStorePolicies_eq]

theorem dbStorePolicies_keeps_nextID (hotelID : Int) (policies : List Policy) (db : DBState) :
    (dbStorePolicies hotelID policies db).nextID = db.nextID := by
  rw [dbStorePolicies_eq]

/-! ## C3 and C4 -/

/-- C3: wholesale replace for the three 1:N collections.  For the
committed StoreProperty transaction: a non-empty Photos, Facilities or
Policies list deletes every prior row of that hotel and batch-inserts the
new rows; an empty list leaves the existing rows of that table completely
untouched. -/
theorem collections_replace_semantics (now : Nat) (p : Property) (db : DBState) :
    ((StoreProperty now p db []).1.hotel_photos =
      if p.Photos.length = 0 then db.hotel_photos
      else db.hotel_photos.filter (fun r => ¬ r.hotel_id = p.HotelID)
           ++ p.Photos.map (photoRow p.HotelID))
    ∧ ((StoreProperty now p db []).1.hotel_facilities =
      if p.Facilities.length = 0 then db.hotel_facilities
      else db.hotel_facilities.filter (fun r => ¬ r.hotel_id = p.HotelID)
           ++ p.Facilities.map (facilityRow p.HotelID))
    ∧ ((StoreProperty now p db []).1.hotel_policies =
      if p.Policies.length = 0 then db.hotel_policies
      else db.hotel_policies.filter (fun r => ¬ r.hotel_id = p.HotelID)
           ++ p.Policies.map (policyRow p.HotelID)) := by
  simp only [storeProperty_noFaults]
  exact ⟨dbStoreProperty_photos now p db, dbStoreProperty_facilities now p db,
    dbStoreProperty_policies now p db⟩

/-- Counterexample to C4 as stated: the claim asserts that with an empty
Instructions list the delete-and-insert is skipped entirely and stored
instructions remain unchanged; but storing `sampleProperty` (whose
Instructions list is empty) over a store holding an instruction for that
hotel leaves the instructions table empty — the delete ran
unconditionally. -/
theorem checkin_empty_clears_instructions :
    sampleProperty.Checkin.Instructions = []
    ∧ seededCheckinDB.hotel_checkin_instructions ≠ []
    ∧ (StoreProperty 7 sampleProperty seededCheckinDB []).1.hotel_checkin_instructions
        = [] := by
  refine ⟨rfl, by decide, by decide⟩

/-- C4 amended: when StoreProperty commits, the prior Instructions of the
upserted checkin row are always deleted — the length guard only skips the
batch insert, so an empty list clears previously stored instructions; a
non-empty list is inserted preserving its input order in `sort_order`. -/
theorem checkin_instructions_replace (now : Nat) (p : Property) (db : DBState) :
    (StoreProperty now p db []).1.hotel_checkin_instructions =
      db.hotel_checkin_instructions.filter
        (fun r => ¬ r.hotel_checkin_id = returnedCheckinID p.HotelID db)
      ++ instructionRows (returnedCheckinID p.HotelID db) p.Checkin.Instructions := by
  simp only [storeProperty_noFaults]
  exact dbStoreProperty_instructions now p db

/-! ## The committed room tables -/

theorem dbStoreProperty_roomrows (now : Nat) (p : Property) (db : DBState) :
    (dbStoreProperty now p db).hotel_rooms =
      if p.Rooms.length = 0 then db.hotel_rooms
      else db.hotel_rooms.filter (fun r => ¬ r.hotel_id = p.HotelID)
           ++ roomRows p.HotelID (returnedNextID p.HotelID db) p.Rooms := by
  simp only [dbStoreProperty]
  rw [dbStoreRooms_eq]
  by_cases h : p.Rooms.length = 0
  · rw [if_pos h, if_pos h]
    simp only [dbStorePolicies_keeps_hotel_rooms, dbStoreFacilities_keeps_hotel_rooms,
      dbStorePhotos_keeps_hotel_rooms, dbStoreCheckin_rooms, dbStoreAddress_keeps_hotel_rooms,
      dbStorePolicies_keeps_nextID, dbStoreFacilities_keeps_nextID, dbStorePhotos_keeps_nextID,
      dbStoreCheckin_nextID, dbStoreHotel_fst]
    rfl
  · rw [if_neg h, if_neg h]
    dsimp only
    simp only [deadRoomIDs, dbStorePolicies_keeps_hotel_rooms, dbStoreFacilities_keeps_hotel_rooms,
      dbStorePhotos_keeps_hotel_rooms, dbStoreCheckin_rooms, dbStoreAddress_keeps_hotel_rooms,
      dbStorePolicies_keeps_nextID, dbStoreFacilities_keeps_nextID, dbStorePhotos_keeps_nextID,
      dbStoreCheckin_nextID, dbStoreHotel_fst]
    rfl

theorem dbStoreProperty_bedtable (now : Nat) (p : Property) (db : DBState) :
    (dbStoreProperty now p db).room_bed_types =
      if p.Rooms.length = 0 then db.room_bed_types
      else db.room_bed_types.filter (fun r => ¬ r.room_id ∈ deadRoomIDs p.HotelID db)
           ++ p.Rooms.flatMap (fun room => room.BedTypes.map (bedTypeRow
                (goMapLookup (roomsMap p.HotelID (returnedNextID p.HotelID db) p.Rooms)
                  room.ID))) := by
  simp only [dbStoreProperty]
  rw [dbStoreRooms_eq]
  by_cases h : p.Rooms.length = 0
  · rw [if_pos h, if_pos h]
    simp only [dbStorePolicies_keeps_hotel_rooms, dbStoreFacilities_keeps_hotel_rooms,
      dbStorePhotos_keeps_hotel_rooms, dbStoreCheckin_rooms, dbStoreAddress_keeps_hotel_rooms,
      dbStorePolicies_keeps_nextID, dbStoreFacilities_keeps_nextID, dbStorePhotos_keeps_nextID,
      dbStoreCheckin_nextID, dbStoreHotel_fst, dbStorePolicies_keeps_room_bed_types, dbStoreFacilities_keeps_room_bed_types,
      dbStorePhotos_keeps_room_bed_types, dbStoreCheckin_bed, dbStoreAddress_keeps_room_bed_types]
    rfl
  · rw [if_neg h, if_neg h]
    dsimp only
    simp only [deadRoomIDs, dbStorePolicies_keeps_hotel_rooms, dbStoreFacilities_keeps_hotel_rooms,
      dbStorePhotos_keeps_hotel_rooms, dbStoreCheckin_rooms, dbStoreAddress_keeps_hotel_rooms,
      dbStorePolicies_keeps_nextID, dbStoreFacilities_keeps_nextID, dbStorePhotos_keeps_nextID,
      dbStoreCheckin_nextID, dbStoreHotel_fst, dbStorePolicies_keeps_room_bed_types, dbStoreFacilities_keeps_room_bed_types,
      dbStorePhotos_keeps_room_bed_types, dbStoreCheckin_bed, dbStoreAddress_keeps_room_bed_types]
    rfl

theorem dbStoreProperty_amentable (now : Nat) (p : Property) (db : DBState) :
    (dbStoreProperty now p db).room_amenities =
      if p.Rooms.length = 0 then db.room_amenities
      else db.room_amenities.filter (fun r => ¬ r.room_id ∈ deadRoomIDs p.HotelID db)
           ++ p.Rooms.flatMap (fun room => room.RoomAmenities.map (roomAmenityRow
                (goMapLookup (roomsMap p.HotelID (returnedNextID p.HotelID db) p.Rooms)
                  room.ID))) := by
  simp only [dbStoreProperty]
  rw [dbStoreRooms_eq]
  by_cases h : p.Rooms.length = 0
  · rw [if_pos h, if_pos h]
    simp only [dbStorePolicies_keeps_hotel_rooms, dbStoreFacilities_keeps_hotel_rooms,
      dbStorePhotos_keeps_hotel_rooms, dbStoreCheckin_rooms, dbStoreAddress_keeps_hotel_rooms,
      dbStorePolicies_keeps_nextID, dbStoreFacilities_keeps_nextID, dbStorePhotos_keeps_nextID,
      dbStoreCheckin_nextID, dbStoreHotel_fst, dbStorePolicies_keeps_room_amenities, dbStoreFacilities_keeps_room_amenities,
      dbStorePhotos_keeps_room_amenities, dbStoreCheckin_amen, dbStoreAddress_keeps_room_amenities]
    rfl
  · rw [if_neg h, if_neg h]
    dsimp only
    simp only [deadRoomIDs, dbStorePolicies_keeps_hotel_rooms, dbStoreFacilities_keeps_hotel_rooms,
      dbStorePhotos_keeps_hotel_rooms, dbStoreCheckin_rooms, dbStoreAddress_keeps_hotel_rooms,
      dbStorePolicies_keeps_nextID, dbStoreFacilities_keeps_nextID, dbStorePhotos_keeps_nextID,
      dbStoreCheckin_nextID, dbStoreHotel_fst, dbStorePolicies_keeps_room_amenities, dbStoreFacilities_keeps_room_amenities,
      dbStorePhotos_keeps_room_amenities, dbStoreCheckin_amen, dbStoreAddress_keeps_room_amenities]
    rfl

theorem dbStoreProperty_rphototable (now : Nat) (p : Property) (db : DBState) :
    (dbStoreProperty now p db).room_photos =
      if p.Rooms.length = 0 then db.room_photos
      else db.room_photos.filter (fun r => ¬ r.room_id ∈ deadRoomIDs p.HotelID db)
           ++ p.Rooms.flatMap (fun room => room.Photos.map (roomPhotoRow
                (goMapLookup (roomsMap p.HotelID (returnedNextID p.HotelID db) p.Rooms)
                  room.ID))) := by
  simp only [dbStoreProperty]
  rw [dbStoreRooms_eq]
  by_cases h : p.Rooms.length = 0
  · rw [if_pos h, if_pos h]
    simp only [dbStorePolicies_keeps_hotel_rooms, dbStoreFacilities_keeps_hotel_rooms,
      dbStorePhotos_keeps_hotel_rooms, dbStoreCheckin_rooms, dbStoreAddress_keeps_hotel_rooms,
      dbStorePolicies_keeps_nextID, dbStoreFacilities_keeps_nextID, dbStorePhotos_keeps_nextID,
      dbStoreCheckin_nextID, dbStoreHotel_fst, dbStorePolicies_keeps_room_photos, dbStoreFacilities_keeps_room_photos,
      dbStorePhotos_keeps_room_photos, dbStoreCheckin_rphotos, dbStoreAddress_keeps_room_photos]
    rfl
  · rw [if_neg h, if_neg h]
    dsimp only
    simp only [deadRoomIDs, dbStorePolicies_keeps_hotel_rooms, dbStoreFacilities_keeps_hotel_rooms,
      dbStorePhotos_keeps_hotel_rooms, dbStoreCheckin_rooms, dbStoreAddress_keeps_hotel_rooms,
      dbStorePolicies_keeps_nextID, dbStoreFacilities_keeps_nextID, dbStorePhotos_keeps_nextID,
      dbStoreCheckin_nextID, dbStoreHotel_fst, dbStorePolicies_keeps_room_photos, dbStoreFacilities_keeps_room_photos,
      dbStorePhotos_keeps_room_photos, dbStoreCheckin_rphotos, dbStoreAddress_keeps_room_photos]
    rfl

/-! ## The room id mapping under distinct external ids -/

theorem goMapInsert_absent (m : List (Int × Nat)) (k : Int) (v : Nat)
    (h : ∀ e ∈ m, e.1 ≠ k) : goMapInsert m k v = m ++ [(k, v)] := by
  unfold goMapInsert
  rw [if_neg]
  simp only [List.any_eq_true, decide_eq_true_eq, not_exists]
  intro e he
  exact absurd he.2 (h e he.1)

theorem buildRoomIDMap_go (returned : List (Nat × Int)) :
    ∀ (acc : List (Int × Nat)),
      (returned.map Prod.snd).Nodup →
      (∀ pr ∈ returned, ∀ e ∈ acc, e.1 ≠ pr.2) →
      List.foldl (fun m row => goMapInsert m row.2 row.1) acc returned
        = acc ++ returned.map (fun pr => (pr.2, pr.1)) := by
  induction returned with
  | nil => intro acc _ _; simp
  | cons pr rest ih =>
    intro acc hnodup hdisj
    rw [List.map_cons, List.nodup_cons] at hnodup
    rw [List.foldl_cons]
    rw [show goMapInsert acc pr.2 pr.1 = acc ++ [(pr.2, pr.1)] from
      goMapInsert_absent _ _ _ (fun e he => hdisj pr (by simp) e he)]
    rw [ih (acc ++ [(pr.2, pr.1)]) hnodup.2 ?_]
    · simp
    · intro q hq e he
      rcases List.mem_append.1 he with hacc | hsingle
      · exact hdisj q (by simp [hq]) e hacc
      · have : e = (pr.2, pr.1) := by simpa using hsingle
        rw [this]
        intro hc
        refine hnodup.1 ?_
        rw [show pr.2 = q.2 from hc]
        exact List.mem_map_of_mem Prod.snd hq

theorem buildRoomIDMap_eq (returned : List (Nat × Int))
    (h : (returned.map Prod.snd).Nodup) :
    buildRoomIDMap returned = returned.map (fun pr => (pr.2, pr.1)) := by
  unfold buildRoomIDMap
  simpa using buildRoomIDMap_go returned [] h (by simp)

theorem goMapLookup_at (ps : List (Int × Nat)) :
    (ps.map Prod.fst).Nodup →
    ∀ (j : Nat) (hj : j < ps.length),
      goMapLookup ps (ps.get ⟨j, hj⟩).1 = (ps.get ⟨j, hj⟩).2 := by
  induction ps with
  | nil => intro _ j hj; simp at hj
  | cons e rest ih =>
    intro hnodup j hj
    rw [List.map_cons, List.nodup_cons] at hnodup
    cases j with
    | zero =>
      unfold goMapLookup
      rw [List.find?_cons_of_pos rest (by simp)]
      rfl
    | succ j =>
      have hjr : j < rest.length := by simpa using hj
      rw [List.get_cons_succ]
      unfold goMapLookup
      rw [List.find?_cons_of_neg rest ?_]
      · exact ih hnodup.2 j hjr
      · simp only [decide_eq_true_eq]
        intro hc
        exact hnodup.1 (hc ▸ List.mem_map_of_mem Prod.fst (List.get_mem rest j hjr))

theorem roomRows_pairs (hotelID : Int) (base : Nat) (rooms : List Room) :
    (roomRows hotelID base rooms).map (fun r => (r.id, r.cupid_room_id)) =
      ((List.range rooms.length).zip rooms).map (fun pr => (base + pr.1, pr.2.ID)) := by
  unfold roomRows
  rw [List.map_map]
  rfl

theorem zip_enum_snd_map {χ : Type} (f : Room → χ) (rooms : List Room)
    (g : Nat × Room → χ) (hg : ∀ pr : Nat × Room, g pr = f pr.2) :
    ((List.range rooms.length).zip rooms).map g = rooms.map f := by
  rw [show g = (f ∘ Prod.snd) from funext fun pr => hg pr]
  rw [← List.map_map, List.map_snd_zip _ _ (by simp)]

theorem roomsMap_eq (hotelID : Int) (base : Nat) (rooms : List Room)
    (hnodup : (rooms.map Room.ID).Nodup) :
    roomsMap hotelID base rooms =
      ((List.range rooms.length).zip rooms).map (fun pr => (pr.2.ID, base + pr.1)) := by
  unfold roomsMap
  rw [roomRows_pairs]
  rw [buildRoomIDMap_eq _ ?_]
  · rw [List.map_map]
    rfl
  · rw [List.map_map]
    rw [zip_enum_snd_map Room.ID rooms
      (Prod.snd ∘ fun pr : Nat × Room => (base + pr.1, pr.2.ID)) (fun pr => rfl)]
    exact hnodup

theorem roomsMap_lookup (hotelID : Int) (base : Nat) (rooms : List Room)
    (hnodup : (rooms.map Room.ID).Nodup) (j : Nat) (hj : j < rooms.length) :
    goMapLookup (roomsMap hotelID base rooms) (rooms.get ⟨j, hj⟩).ID = base + j := by
  rw [roomsMap_eq hotelID base rooms hnodup]
  have hlen : (((List.range rooms.length).zip rooms).map
      (fun pr => (pr.2.ID, base + pr.1))).length = rooms.length := by simp
  have hj' : j < (((List.range rooms.length).zip rooms).map
      (fun pr => (pr.2.ID, base + pr.1))).length := by rw [hlen]; exact hj
  have hkey : ((((List.range rooms.length).zip rooms).map
      (fun pr => (pr.2.ID, base + pr.1))).get ⟨j, hj'⟩).1 = (rooms.get ⟨j, hj⟩).ID := by
    simp [List.get_eq_getElem, List.getElem_zip, List.getElem_range]
  have hval : ((((List.range rooms.length).zip rooms).map
      (fun pr => (pr.2.ID, base + pr.1))).get ⟨j, hj'⟩).2 = base + j := by
    simp [List.get_eq_getElem, List.getElem_zip, List.getElem_range]
  have hfst : ((((List.range rooms.length).zip rooms).map
      (fun pr => (pr.2.ID, base + pr.1))).map Prod.fst).Nodup := by
    rw [List.map_map]
    rw [zip_enum_snd_map Room.ID rooms
      (Prod.fst ∘ fun pr : Nat × Room => (pr.2.ID, base + pr.1)) (fun pr => rfl)]
    exact hnodup
  rw [← hkey, goMapLookup_at _ hfst j hj', hval]

theorem flatMap_lookup_enum {χ : Type} (g : Room → Nat → List χ) :
    ∀ (rooms : List Room) (m : List (Int × Nat)) (base : Nat),
      (∀ (j : Nat) (hj : j < rooms.length),
        goMapLookup m (rooms.get ⟨j, hj⟩).ID = base + j) →
      rooms.flatMap (fun room => g room (goMapLookup m room.ID))
        = ((List.range rooms.length).zip rooms).flatMap (fun pr => g pr.2 (base + pr.1)) := by
  intro rooms
  induction rooms with
  | nil => intro m base _; rfl
  | cons room rest ih =>
    intro m base h
    rw [List.flatMap_cons]
    have h0 : goMapLookup m room.ID = base := by
      have h00 := h 0 (by simp)
      simpa using h00
    rw [h0]
    rw [ih m (base + 1) ?_]
    · rw [List.length_cons, List.range_succ_eq_map, List.zip_cons_cons, List.flatMap_cons]
      congr 1
      rw [List.zip_map_left, List.flatMap_map]
      congr 1
      funext pr
      have hadd : base + (pr.1 + 1) = base + 1 + pr.1 := by omega
      simp [Prod.map, Nat.succ_eq_add_one, hadd]
    · intro j hj
      have hstep := h (j + 1) (by simpa using Nat.succ_lt_succ hj)
      rw [List.get_cons_succ] at hstep
      rw [hstep]
      omega

/-! ## C5 -/

/-- Counterexample to C5 as stated: the claim asserts that a room whose
external id is absent from the returned mapping makes the operation fail
loudly.  In the code the children loop does `roomID := roomIDMap[room.ID]`
with no presence check: at a mapping that does not contain the id, the Go
map lookup yields the zero value 0 and the loop succeeds, silently
inserting the children under internal room id 0. -/
theorem rooms_missing_id_not_loud :
    goMapLookup [] sampleRoom10.ID = 0
    ∧ storeRoomChildren [] [sampleRoom10] ⟨emptyDB, []⟩
        = .ok ⟨{ emptyDB with
                   room_bed_types := [bedTypeRow 0 sampleBed10]
                   room_amenities := [roomAmenityRow 0 sampleAmenity]
                   room_photos := [roomPhotoRow 0 samplePhoto] }, []⟩ :=
  ⟨rfl, rfl⟩

/-- C5 amended: the committed rooms step is a two-phase insert.  All prior
room rows of the hotel are deleted (their children removed by the store
cascade), the new rooms are inserted with generated internal ids starting
at the post-checkin serial counter, the external-to-internal id mapping is
captured from the returned pairs, and each input room's BedTypes,
RoomAmenities and Photos are inserted under the internal id resolved from
that mapping — which, for distinct external ids, is exactly the id of that
room's own inserted row.  (A missing mapping entry would not fail loudly:
the lookup silently yields 0, see the counterexample; with the mapping the
insert returns, every input id is present.) -/
theorem rooms_two_phase (now : Nat) (p : Property) (db : DBState)
    (hne : p.Rooms.length ≠ 0) (hnodup : (p.Rooms.map Room.ID).Nodup) :
    ((StoreProperty now p db []).1.hotel_rooms =
        db.hotel_rooms.filter (fun r => ¬ r.hotel_id = p.HotelID)
        ++ roomRows p.HotelID (returnedNextID p.HotelID db) p.Rooms)
    ∧ ((StoreProperty now p db []).1.room_bed_types =
        db.room_bed_types.filter (fun r => ¬ r.room_id ∈ deadRoomIDs p.HotelID db)
        ++ ((List.range p.Rooms.length).zip p.Rooms).flatMap
             (fun pr => pr.2.BedTypes.map
               (bedTypeRow (returnedNextID p.HotelID db + pr.1))))
    ∧ ((StoreProperty now p db []).1.room_amenities =
        db.room_amenities.filter (fun r => ¬ r.room_id ∈ deadRoomIDs p.HotelID db)
        ++ ((List.range p.Rooms.length).zip p.Rooms).flatMap
             (fun pr => pr.2.RoomAmenities.map
               (roomAmenityRow (returnedNextID p.HotelID db + pr.1))))
    ∧ ((StoreProperty now p db []).1.room_photos =
        db.room_photos.filter (fun r => ¬ r.room_id ∈ deadRoomIDs p.HotelID db)
        ++ ((List.range p.Rooms.length).zip p.Rooms).flatMap
             (fun pr => pr.2.Photos.map
               (roomPhotoRow (returnedNextID p.HotelID db + pr.1)))) := by
  simp only [storeProperty_noFaults]
  have hlk := roomsMap_lookup p.HotelID (returnedNextID p.HotelID db) p.Rooms hnodup
  refine ⟨?_, ?_, ?_, ?_⟩
  · rw [dbStoreProperty_roomrows, if_neg hne]
  · rw [dbStoreProperty_bedtable, if_neg hne]
    congr 1
    exact flatMap_lookup_enum (fun room n => room.BedTypes.map (bedTypeRow n))
      p.Rooms _ _ hlk
  · rw [dbStoreProperty_amentable, if_neg hne]
    congr 1
    exact flatMap_lookup_enum (fun room n => room.RoomAmenities.map (roomAmenityRow n))
      p.Rooms _ _ hlk
  · rw [dbStoreProperty_rphototable, if_neg hne]
    congr 1
    exact flatMap_lookup_enum (fun room n => room.Photos.map (roomPhotoRow n))
      p.Rooms _ _ hlk

/-- Witness for the amended C5 at the spec's remapping scenario: a
Property with two rooms whose external ids are 10 and 20, stored into the
empty store. -/
theorem rooms_two_phase_witness :
    roomsProperty.Rooms.length ≠ 0
    ∧ (roomsProperty.Rooms.map Room.ID).Nodup
    ∧ (((StoreProperty 3 roomsProperty emptyDB []).1.hotel_rooms =
          emptyDB.hotel_rooms.filter (fun r => ¬ r.hotel_id = roomsProperty.HotelID)
          ++ roomRows roomsProperty.HotelID
               (returnedNextID roomsProperty.HotelID emptyDB) roomsProperty.Rooms)
        ∧ ((StoreProperty 3 roomsProperty emptyDB []).1.room_bed_types =
          emptyDB.room_bed_types.filter
              (fun r => ¬ r.room_id ∈ deadRoomIDs roomsProperty.HotelID emptyDB)
          ++ ((List.range roomsProperty.Rooms.length).zip roomsProperty.Rooms).flatMap
               (fun pr => pr.2.BedTypes.map
                 (bedTypeRow (returnedNextID roomsProperty.HotelID emptyDB + pr.1))))
        ∧ ((StoreProperty 3 roomsProperty emptyDB []).1.room_amenities =
          emptyDB.room_amenities.filter
              (fun r => ¬ r.room_id ∈ deadRoomIDs roomsProperty.HotelID emptyDB)
          ++ ((List.range roomsProperty.Rooms.length).zip roomsProperty.Rooms).flatMap
               (fun pr => pr.2.RoomAmenities.map
                 (roomAmenityRow (returnedNextID roomsProperty.HotelID emptyDB + pr.1))))
        ∧ ((StoreProperty 3 roomsProperty emptyDB []).1.room_photos =
          emptyDB.room_photos.filter
              (fun r => ¬ r.room_id ∈ deadRoomIDs roomsProperty.HotelID emptyDB)
          ++ ((List.range roomsProperty.Rooms.length).zip roomsProperty.Rooms).flatMap
               (fun pr => pr.2.Photos.map
                 (roomPhotoRow (returnedNextID roomsProperty.HotelID emptyDB + pr.1))))) :=
  ⟨by decide, by decide,
   rooms_two_phase 3 roomsProperty emptyDB (by decide) (by decide)⟩

/-! ## C6 -/

theorem syncHotelContent_fail_frame (doResult : DoResult) (parse : String → Option Property)
    (faults : Faults) (now : Nat) (db : DBState)
    (h : (syncHotelContent doResult parse faults now db).2 = false) :
    (syncHotelContent doResult parse faults now db).1 = db := by
  unfold syncHotelContent at h ⊢
  rcases doResult with e | pr
  · rfl
  · obtain ⟨status, body⟩ := pr
    dsimp only at h ⊢
    by_cases hs : status = 200
    · rw [if_pos hs] at h ⊢
      cases hp : parse body with
      | none => rfl
      | some prop =>
        rw [hp] at h
        dsimp only at h
        exact storeProperty_rollback h
    · rw [if_neg hs]

theorem syncHotelContent_success (doResult : DoResult) (parse : String → Option Property)
    (faults : Faults) (now : Nat) (db : DBState) (status : Int) (body : String)
    (prop : Property) (henv : doResult = .ok (status, body)) (hp : parse body = some prop)
    (h : (syncHotelContent doResult parse faults now db).2 = true) :
    (syncHotelContent doResult parse faults now db).1 = dbStoreProperty now prop db := by
  subst henv
  unfold syncHotelContent at h ⊢
  dsimp only at h ⊢
  by_cases hs : status = 200
  · rw [if_pos hs] at h ⊢
    rw [hp] at h ⊢
    exact storeProperty_commit h
  · rw [if_neg hs] at h
    simp at h

theorem batchSync_spec (env : Int → DoResult) (parse : String → Option Property)
    (faults : Int → Faults) (now : Nat) :
    ∀ (l : List Int) (db : DBState) (s t : Nat),
      (batchSync env parse faults now l db s t).1
          = l.foldl (fun d h => (syncHotelContent (env h) parse (faults h) now d).1) db
      ∧ s ≤ (batchSync env parse faults now l db s t).2.1
      ∧ (batchSync env parse faults now l db s t).2.1 ≤ s + l.length
      ∧ (batchSync env parse faults now l db s t).2.2 = t + 100 * l.length := by
  intro l
  induction l with
  | nil =>
    intro db s t
    exact ⟨rfl, le_refl s, by simp [batchSync], by simp [batchSync]⟩
  | cons h0 rest ih =>
    intro db s t
    simp only [batchSync]
    obtain ⟨ih1, ih2, ih3, ih4⟩ :=
      ih (syncHotelContent (env h0) parse (faults h0) now db).1
        (if (syncHotelContent (env h0) parse (faults h0) now db).2 then s + 1 else s)
        (t + 100)
    refine ⟨?_, ?_, ?_, ?_⟩
    · rw [ih1, List.foldl_cons]
    · exact le_trans (by split <;> omega) ih2
    · refine le_trans ih3 ?_
      rw [List.length_cons]
      split <;> omega
    · rw [ih4, List.length_cons]
      omega

/-- C6: the batch loop is sequential with a fixed 100ms delay per hotel,
never stops on a per-hotel failure, reports success plus failure equal to
the total, leaves the store untouched for every failed hotel, and fully
persists every hotel whose sync succeeded, whatever happened to the
others. -/
theorem batch_sync_isolation (env : Int → DoResult) (parse : String → Option Property)
    (faults : Int → Faults) (now : Nat) (hotelIDs : List Int) (db : DBState) :
    (batchSync env parse faults now hotelIDs db 0 0).2.1 ≤ hotelIDs.length
    ∧ (batchReport env parse faults now hotelIDs db).1
        + (batchReport env parse faults now hotelIDs db).2 = hotelIDs.length
    ∧ (batchSync env parse faults now hotelIDs db 0 0).2.2 = 100 * hotelIDs.length
    ∧ (batchSync env parse faults now hotelIDs db 0 0).1 =
        hotelIDs.foldl (fun d h => (syncHotelContent (env h) parse (faults h) now d).1) db
    ∧ (∀ h d, (syncHotelContent (env h) parse (faults h) now d).2 = false →
        (syncHotelContent (env h) parse (faults h) now d).1 = d)
    ∧ (∀ h d status body prop, env h = .ok (status, body) → parse body = some prop →
        (syncHotelContent (env h) parse (faults h) now d).2 = true →
        (syncHotelContent (env h) parse (faults h) now d).1 = dbStoreProperty now prop d) := by
  obtain ⟨h1, h2, h3, h4⟩ := batchSync_spec env parse faults now hotelIDs db 0 0
  refine ⟨by simpa using h3, ?_, by simpa using h4, h1, ?_, ?_⟩
  · have hle : (batchSync env parse faults now hotelIDs db 0 0).2.1 ≤ hotelIDs.length := by
      simpa using h3
    simp only [batchReport]
    omega
  · intro h d hfail
    exact syncHotelContent_fail_frame (env h) parse (faults h) now d hfail
  · intro h d status body prop henv hp hsucc
    exact syncHotelContent_success (env h) parse (faults h) now d status body prop henv
      hp hsucc

/-- Witness for C6 at the spec's isolation scenario: hotel ids [1, 2, 3]
where hotel 2's fetch fails; the report is 2 successes and 1 failure, the
loop slept 3 times 100ms, and the hotels of 1 and 3 are both fully
persisted. -/
theorem batch_sync_isolation_witness :
    batchReport batchEnvABC batchParseABC (fun _ => []) 5 [1, 2, 3] emptyDB = (2, 1)
    ∧ (batchSync batchEnvABC batchParseABC (fun _ => []) 5 [1, 2, 3] emptyDB 0 0).2.2 = 300
    ∧ ((batchSync batchEnvABC batchParseABC (fun _ => []) 5 [1, 2, 3] emptyDB 0 0).1.hotels.map
        HotelRow.hotel_id) = [1641879, 99]
    ∧ (batchReport batchEnvABC batchParseABC (fun _ => []) 5 [1, 2, 3] emptyDB).1
        + (batchReport batchEnvABC batchParseABC (fun _ => []) 5 [1, 2, 3] emptyDB).2
        = [(1 : Int), 2, 3].length :=
  ⟨by decide, by decide, by decide,
   (batch_sync_isolation batchEnvABC batchParseABC (fun _ => []) 5 [1, 2, 3] emptyDB).2.1⟩

/-! ## C7 and C8 -/

/-- C7: the review read path is cache-aside.  With a live cache attached:
a cache hit (no error, non-nil list) is served directly with
`from_cache = true` and no repopulation; on a miss or a cache error the
handler falls back to the repository lookup, serves it with
`from_cache = false` and attempts a `SetReviews` with the fixed
five-minute TTL (a repository failure is a 500); and the outcome of the
`SetReviews` attempt never changes the response — a failed Set is only
logged. -/
theorem cache_aside_read (ops : CacheOps) (repoGet : Except Unit (List Review)) :
    (∀ l, ops.get = .ok (some l) →
      getHotelReviewsHandler (some (some ())) ops repoGet = .ok ⟨200, l, true, none⟩)
    ∧ (ops.get = .ok none ∨ ops.get = .error () →
        (∀ l, repoGet = .ok l →
          getHotelReviewsHandler (some (some ())) ops repoGet
            = .ok ⟨200, l, false, some reviewCacheTTL⟩)
        ∧ (repoGet = .error () →
          getHotelReviewsHandler (some (some ())) ops repoGet = .ok ⟨500, [], false, none⟩))
    ∧ (∀ s1 s2, getHotelReviewsHandler (some (some ())) ⟨ops.get, s1⟩ repoGet
        = getHotelReviewsHandler (some (some ())) ⟨ops.get, s2⟩ repoGet) := by
  refine ⟨?_, ?_, ?_⟩
  · intro l hget
    unfold getHotelReviewsHandler
    rw [hget]
  · intro hmiss
    constructor
    · intro l hrepo
      unfold getHotelReviewsHandler
      rcases hmiss with hm | hm <;> rw [hm, hrepo]
    · intro hrepo
      unfold getHotelReviewsHandler
      rcases hmiss with hm | hm <;> rw [hm, hrepo]
  · intro s1 s2
    rfl

/-- Witness for C7: a cache miss whose repopulating `SetReviews` would
fail; the read still succeeds from the repository with `from_cache =
false` and the five-minute-TTL repopulation attempt. -/
theorem cache_aside_read_witness :
    getHotelReviewsHandler (some (some ())) (CacheOps.mk (.ok none) (.error ()))
        (.ok [⟨1, 7, "a", 5, "t", "c", "en", "2024-01-01", 0, "now"⟩])
      = .ok ⟨200, [⟨1, 7, "a", 5, "t", "c", "en", "2024-01-01", 0, "now"⟩], false,
          some reviewCacheTTL⟩ :=
  ((cache_aside_read (CacheOps.mk (.ok none) (.error ()))
      (.ok [⟨1, 7, "a", 5, "t", "c", "en", "2024-01-01", 0, "now"⟩])).2.1
    (Or.inl rfl)).1 _ rfl

/-- C8 (code bug): degraded mode is broken by a typed-nil interface.  When
the startup ping fails, `main` sets the typed `*RedisCache` pointer to nil
and passes it on; the interface handed to the server is non-nil, the
handler's `s.cache != nil` check passes, and `GetReviews` dereferences its
nil receiver: every review read panics instead of falling back to the
store.  A genuinely nil cache interface (the intended wiring) would have
served every read from the repository. -/
theorem degraded_mode_read_panics :
    mainCacheSetup false = some none
    ∧ (∀ (ops : CacheOps) (repoGet : Except Unit (List Review)),
        getHotelReviewsHandler (mainCacheSetup false) ops repoGet
          = .error .nilPointerDereference)
    ∧ (∀ (l : List Review) (s : Except Unit Unit),
        getHotelReviewsHandler none ⟨.ok none, s⟩ (.ok l) = .ok ⟨200, l, false, none⟩) :=
  ⟨rfl, fun _ _ => rfl, fun _ _ => rfl⟩

/-! ## C9 -/

/-- C9: the status classifier is a total three-way partition.  A code in
[200,300) returns the body with no error; a code in [400,600) returns the
typed error carrying that code and the correlation id from the response
header, with no body; every other code returns the distinct
unexpected-status error. -/
theorem status_classifier_partition (statusCode : Int) (body requestID : String) :
    (200 ≤ statusCode ∧ statusCode < 300 →
      classifyResponse statusCode body requestID = (some body, none))
    ∧ (400 ≤ statusCode ∧ statusCode < 600 →
      classifyResponse statusCode body requestID
        = (none, some (.typed statusCode requestID)))
    ∧ (¬(200 ≤ statusCode ∧ statusCode < 300) → ¬(400 ≤ statusCode ∧ statusCode < 600) →
      classifyResponse statusCode body requestID
        = (none, some (.unexpected statusCode)))
    ∧ (∀ rid, GoError.typed statusCode rid ≠ GoError.unexpected statusCode) := by
  refine ⟨?_, ?_, ?_, ?_⟩
  · intro h
    unfold classifyResponse
    rw [if_pos h]
  · intro h
    unfold classifyResponse
    rw [if_neg (by omega)]
    by_cases h4 : statusCode ≤ 499
    · rw [if_pos ⟨h.1, h4⟩]
    · rw [if_neg (by omega), if_pos (by omega)]
  · intro h2 h4
    unfold classifyResponse
    rw [if_neg h2, if_neg (by omega), if_neg (by omega)]
  · intro rid h
    cases h

/-- Witness for C9 across the four regions: 204 succeeds with the body,
404 and 503 yield the typed error with status and correlation id, 302
yields the unexpected-status error. -/
theorem status_classifier_witness :
    classifyResponse 204 "body" "req-1" = (some "body", none)
    ∧ classifyResponse 404 "ignored" "req-2" = (none, some (.typed 404 "req-2"))
    ∧ classifyResponse 503 "ignored" "req-3" = (none, some (.typed 503 "req-3"))
    ∧ classifyResponse 302 "ignored" "req-4" = (none, some (.unexpected 302)) :=
  ⟨(status_classifier_partition 204 "body" "req-1").1 (by omega),
   (status_classifier_partition 404 "ignored" "req-2").2.1 (by omega),
   (status_classifier_partition 503 "ignored" "req-3").2.1 (by omega),
   (status_classifier_partition 302 "ignored" "req-4").2.2.1 (by omega) (by omega)⟩

/-! ## C10 -/

/-- C10: the reviews sync never calls StoreReviews with an empty set.  If
the store was called, the list was non-empty; a 200 response with an empty
body, or a body parsing to zero reviews, completes successfully without
any store call, leaving previously stored reviews untouched. -/
theorem reviews_sync_no_empty_store (doResult : DoResult)
    (parse : String → Option (List Review)) (storeResult : Except Unit Unit) :
    (∀ l, (syncHotelReviews doResult parse storeResult).2 = some l → l ≠ [])
    ∧ (doResult = .ok (200, "") →
        syncHotelReviews doResult parse storeResult = (.ok (), none))
    ∧ (∀ body, doResult = .ok (200, body) → parse body = some [] →
        syncHotelReviews doResult parse storeResult = (.ok (), none)) := by
  refine ⟨?_, ?_, ?_⟩
  · intro l hl
    unfold syncHotelReviews at hl
    rcases doResult with e | pr
    · simp at hl
    · obtain ⟨status, body⟩ := pr
      dsimp only at hl
      by_cases hs : status = 200
      · rw [if_pos hs] at hl
        by_cases hb : body.length > 0
        · rw [if_pos hb] at hl
          cases hp : parse body with
          | none => rw [hp] at hl; simp at hl
          | some reviews =>
            rw [hp] at hl
            dsimp only at hl
            by_cases hr : reviews.length > 0
            · rw [if_pos hr] at hl
              cases storeResult <;> simp_all <;> subst hl <;>
                exact fun hc => by simp [hc] at hr
            · rw [if_neg hr] at hl
              simp at hl
        · rw [if_neg hb] at hl
          simp at hl
      · rw [if_neg hs] at hl
        simp at hl
  · intro hdo
    subst hdo
    unfold syncHotelReviews
    rfl
  · intro body hdo hp
    subst hdo
    unfold syncHotelReviews
    dsimp only
    rw [if_pos rfl]
    by_cases hb : body.length > 0
    · rw [if_pos hb, hp]
      rfl
    · rw [if_neg hb]

/-- Witness for C10: a 200 response whose body parses to zero reviews
completes successfully without a store call. -/
theorem reviews_sync_no_empty_store_witness :
    syncHotelReviews (.ok (200, "empty-list")) (fun _ => some []) (.ok ())
      = (.ok (), none) :=
  (reviews_sync_no_empty_store (.ok (200, "empty-list")) (fun _ => some [])
      (.ok ())).2.2 "empty-list" rfl rfl

end Cupid
